import Mathlib

/-!
Verification development for the semantic core of the Stellar compiler:
the symbol database (stellar_database), the definition collector
(stellar_typechecker/collect_definitions.rs) and the type resolver
(ry_typechecker/resolution.rs).

Shallow embedding conventions:
  - arenas (Rust Vec) become Lean lists; handles wrap a Nat index;
  - hash maps become association lists whose lookup returns the most
    recently inserted binding (insertion conses in front), which matches
    the observable insert-or-overwrite behaviour of FxHashMap;
  - Rust panics (indexing out of range, todo, unreachable, unwrap) become
    Option failures or an explicit panic marker in a result type;
  - the shared diagnostics sink becomes an explicitly threaded list of
    emitted diagnostic records, in emission order.
-/

set_option autoImplicit false

/-- Lookup in an association list keyed by Nat: returns the value of the
first (most recently inserted) pair with the given key, mirroring
FxHashMap get. -/
def lookupKey {α : Type} : List (Nat × α) → Nat → Option α
  | [], _ => none
  | (k, v) :: rest, key => if k = key then some v else lookupKey rest key

/-- Apply a function to the element at the given index of a list, leaving
the list unchanged when the index is out of range.  Used to embed in-place
mutation of one arena slot. -/
def listModify {α : Type} (f : α → α) : Nat → List α → List α
  | _, [] => []
  | 0, a :: rest => f a :: rest
  | n + 1, a :: rest => a :: listModify f n rest

mutual
/-- Embeds the semantic type (stellar_thir / ry_thir ty::Type): one of
Constructor, Tuple, Function, InterfaceObject or Unknown. -/
inductive Ty : Type where
  | constructor (c : TypeConstructor)
  | tuple (element_types : List Ty)
  | function (parameter_types : List Ty) (return_type : Ty)
  | interfaceObject (bounds : List TypeConstructor)
  | unknown

/-- Embeds ty::TypeConstructor: a path of interned identifiers plus type
arguments. -/
inductive TypeConstructor : Type where
  | mk (path : List Nat) (arguments : List Ty)
end

/-- The path component of a type constructor. -/
def TypeConstructor.path : TypeConstructor → List Nat
  | .mk p _ => p

/-- The arguments component of a type constructor. -/
def TypeConstructor.arguments : TypeConstructor → List Ty
  | .mk _ a => a

namespace Stellar

/-- Embeds stellar_filesystem Location: a file path ID plus a byte range. -/
structure Location : Type where
  filepath : Nat
  startByte : Nat
  endByte : Nat
deriving DecidableEq, Repr

/-- Embeds DUMMY_LOCATION: the placeholder location used for entities,
such as modules, that have no name location. -/
def DUMMY_LOCATION : Location := ⟨0, 0, 0⟩

/-- Embeds stellar_ast IdentifierAST: an interned identifier with the
location it was written at. -/
structure IdentifierAST : Type where
  location : Location
  id : Nat
deriving DecidableEq, Repr

/-- Embeds stellar_ast Visibility. -/
inductive Visibility : Type where
  | pub
  | priv
deriving DecidableEq, Repr

/-- A unique ID that maps to ModuleData. -/
structure ModuleID : Type where
  idx : Nat
deriving DecidableEq, Repr

/-- A unique ID that maps to EnumData. -/
structure EnumID : Type where
  idx : Nat
deriving DecidableEq, Repr

/-- A unique ID that maps to StructData. -/
structure StructID : Type where
  idx : Nat
deriving DecidableEq, Repr

/-- A unique ID that maps to TupleLikeStructData. -/
structure TupleLikeStructID : Type where
  idx : Nat
deriving DecidableEq, Repr

/-- A unique ID that maps to FunctionData. -/
structure FunctionID : Type where
  idx : Nat
deriving DecidableEq, Repr

/-- A unique ID that maps to InterfaceData. -/
structure InterfaceID : Type where
  idx : Nat
deriving DecidableEq, Repr

/-- A unique ID that maps to TypeAliasData. -/
structure TypeAliasID : Type where
  idx : Nat
deriving DecidableEq, Repr

/-- A unique ID that maps to EnumItemData. -/
structure EnumItemID : Type where
  idx : Nat
deriving DecidableEq, Repr

/-- A unique ID that maps to PredicateData. -/
structure PredicateID : Type where
  idx : Nat
deriving DecidableEq, Repr

/-- A unique ID that maps to FieldData. -/
structure FieldID : Type where
  idx : Nat
deriving DecidableEq, Repr

/-- A unique ID that maps to GenericParameterScopeData. -/
structure GenericParameterScopeID : Type where
  idx : Nat
deriving DecidableEq, Repr

/-- A unique ID that maps to GenericParameterData. -/
structure GenericParameterID : Type where
  idx : Nat
deriving DecidableEq, Repr

/-- Embeds the Symbol enum of stellar_database: a tagged union over the
per-kind handles. -/
inductive Symbol : Type where
  | module (id : ModuleID)
  | enum (id : EnumID)
  | struct (id : StructID)
  | function (id : FunctionID)
  | interface (id : InterfaceID)
  | tuple_like_struct (id : TupleLikeStructID)
  | type_alias (id : TypeAliasID)
  | enum_item (id : EnumItemID)
deriving DecidableEq, Repr

/-- Embeds EnumData. -/
structure EnumData : Type where
  visibility : Visibility
  name : IdentifierAST
  module : ModuleID
  implements : List TypeConstructor
  predicates : List PredicateID
  items : List (Nat × EnumItemID)
  methods : List (Nat × FunctionID)

/-- Embeds EnumData::new. -/
def EnumData.new (visibility : Visibility) (name : IdentifierAST) (module : ModuleID) :
    EnumData :=
  ⟨visibility, name, module, [], [], [], []⟩

/-- Embeds StructData. -/
structure StructData : Type where
  visibility : Visibility
  name : IdentifierAST
  module : ModuleID
  predicates : List PredicateID
  fields : List (Nat × FieldID)
  methods : List (Nat × FunctionID)

/-- Embeds StructData::new. -/
def StructData.new (visibility : Visibility) (name : IdentifierAST) (module : ModuleID) :
    StructData :=
  ⟨visibility, name, module, [], [], []⟩

/-- Embeds TupleLikeStructData. -/
structure TupleLikeStructData : Type where
  visibility : Visibility
  name : IdentifierAST
  fields : List (Visibility × Ty)
  module : ModuleID

/-- Embeds TupleLikeStructData::new. -/
def TupleLikeStructData.new (visibility : Visibility) (name : IdentifierAST)
    (module : ModuleID) : TupleLikeStructData :=
  ⟨visibility, name, [], module⟩

/-- Embeds FieldData. -/
structure FieldData : Type where
  visibility : Visibility
  name : IdentifierAST
  ty : Ty

/-- Embeds PredicateData. -/
structure PredicateData : Type where
  ty : Ty
  bounds : List TypeConstructor

/-- Embeds GenericParameterScopeData: an optional parent scope handle and
the map of parameters declared in this scope itself. -/
structure GenericParameterScopeData : Type where
  parent_scope : Option GenericParameterScopeID
  parameters : List (Nat × GenericParameterID)

/-- Embeds GenericParameterData. -/
structure GenericParameterData : Type where
  location : Location
  default_value : Option Ty

/-- Embeds EnumItemData. -/
structure EnumItemData : Type where
  name : IdentifierAST
  module : ModuleID

/-- Embeds FunctionData. -/
structure FunctionData : Type where
  name : IdentifierAST
  visibility : Visibility
  module : ModuleID

/-- Embeds InterfaceData. -/
structure InterfaceData : Type where
  visibility : Visibility
  name : IdentifierAST
  module : ModuleID
  predicates : List PredicateID
  methods : List (Nat × FunctionID)

/-- Embeds InterfaceData::new. -/
def InterfaceData.new (visibility : Visibility) (name : IdentifierAST) (module : ModuleID) :
    InterfaceData :=
  ⟨visibility, name, module, [], []⟩

/-- Embeds TypeAliasData.  TypeAliasData::new sets ty to Unknown. -/
structure TypeAliasData : Type where
  visibility : Visibility
  name : IdentifierAST
  ty : Ty
  module : ModuleID

/-- Embeds TypeAliasData::new: the underlying type starts out Unknown. -/
def TypeAliasData.new (visibility : Visibility) (name : IdentifierAST) (module : ModuleID) :
    TypeAliasData :=
  ⟨visibility, name, Ty.unknown, module⟩

/-- Embeds ModuleData: name, source file, declared-item map, submodule map
and resolved-import map. -/
structure ModuleData : Type where
  name : Nat
  filepath : Nat
  module_item_symbols : List (Nat × Symbol)
  submodules : List (Nat × ModuleID)
  resolved_imports : List (Nat × Symbol)

/-- Embeds the Database struct: the package registry plus one append-only
arena per entity kind. -/
structure Database : Type where
  packages : List (Nat × ModuleID)
  modules : List ModuleData
  enums : List EnumData
  enum_items : List EnumItemData
  predicates : List PredicateData
  structs : List StructData
  tuple_like_structs : List TupleLikeStructData
  fields : List FieldData
  functions : List FunctionData
  interfaces : List InterfaceData
  type_aliases : List TypeAliasData
  generic_parameter_scopes : List GenericParameterScopeData
  generic_parameters : List GenericParameterData

/-- Embeds Database::new: the empty database. -/
def Database.new : Database :=
  ⟨[], [], [], [], [], [], [], [], [], [], [], [], []⟩

/-- Embeds the macro-generated accessor Database::module.  The source
panics when the index is out of range; the embedding returns none in that
case. -/
def Database.module? (db : Database) (id : ModuleID) : Option ModuleData :=
  db.modules.get? id.idx

/-- Embeds Database::enum_module_item (panic becomes none). -/
def Database.enum_module_item? (db : Database) (id : EnumID) : Option EnumData :=
  db.enums.get? id.idx

/-- Embeds Database::struct_module_item (panic becomes none). -/
def Database.struct_module_item? (db : Database) (id : StructID) : Option StructData :=
  db.structs.get? id.idx

/-- Embeds Database::tuple_like_struct (panic becomes none). -/
def Database.tuple_like_struct? (db : Database) (id : TupleLikeStructID) :
    Option TupleLikeStructData :=
  db.tuple_like_structs.get? id.idx

/-- Embeds Database::type_alias (panic becomes none). -/
def Database.type_alias? (db : Database) (id : TypeAliasID) : Option TypeAliasData :=
  db.type_aliases.get? id.idx

/-- Embeds Database::function (panic becomes none). -/
def Database.function? (db : Database) (id : FunctionID) : Option FunctionData :=
  db.functions.get? id.idx

/-- Embeds Database::interface (panic becomes none). -/
def Database.interface? (db : Database) (id : InterfaceID) : Option InterfaceData :=
  db.interfaces.get? id.idx

/-- Embeds Database::predicate (panic becomes none). -/
def Database.predicate? (db : Database) (id : PredicateID) : Option PredicateData :=
  db.predicates.get? id.idx

/-- Embeds Database::enum_item (panic becomes none). -/
def Database.enum_item? (db : Database) (id : EnumItemID) : Option EnumItemData :=
  db.enum_items.get? id.idx

/-- Embeds Database::field (panic becomes none). -/
def Database.field? (db : Database) (id : FieldID) : Option FieldData :=
  db.fields.get? id.idx

/-- Embeds Database::generic_parameter_scope (panic becomes none). -/
def Database.generic_parameter_scope? (db : Database) (id : GenericParameterScopeID) :
    Option GenericParameterScopeData :=
  db.generic_parameter_scopes.get? id.idx

/-- Embeds Database::generic_parameter (panic becomes none). -/
def Database.generic_parameter? (db : Database) (id : GenericParameterID) :
    Option GenericParameterData :=
  db.generic_parameters.get? id.idx

/-- Embeds the macro-generated mutator Database::module_mut, presented as
an update: applies f to the slot when the handle is in range and fails
(source: panic) otherwise. -/
def Database.moduleMut? (db : Database) (id : ModuleID) (f : ModuleData → ModuleData) :
    Option Database :=
  (db.module? id).map fun d => { db with modules := db.modules.set id.idx (f d) }

/-- Embeds Database::enum_module_item_mut as an update. -/
def Database.enumMut? (db : Database) (id : EnumID) (f : EnumData → EnumData) :
    Option Database :=
  (db.enum_module_item? id).map fun d => { db with enums := db.enums.set id.idx (f d) }

/-- Embeds Database::struct_module_item_mut as an update. -/
def Database.structMut? (db : Database) (id : StructID) (f : StructData → StructData) :
    Option Database :=
  (db.struct_module_item? id).map fun d => { db with structs := db.structs.set id.idx (f d) }

/-- Embeds Database::tuple_like_struct_mut as an update. -/
def Database.tupleLikeStructMut? (db : Database) (id : TupleLikeStructID)
    (f : TupleLikeStructData → TupleLikeStructData) : Option Database :=
  (db.tuple_like_struct? id).map fun d =>
    { db with tuple_like_structs := db.tuple_like_structs.set id.idx (f d) }

/-- Embeds Database::type_alias_mut as an update. -/
def Database.typeAliasMut? (db : Database) (id : TypeAliasID)
    (f : TypeAliasData → TypeAliasData) : Option Database :=
  (db.type_alias? id).map fun d => { db with type_aliases := db.type_aliases.set id.idx (f d) }

/-- Embeds Database::function_mut as an update. -/
def Database.functionMut? (db : Database) (id : FunctionID)
    (f : FunctionData → FunctionData) : Option Database :=
  (db.function? id).map fun d => { db with functions := db.functions.set id.idx (f d) }

/-- Embeds Database::interface_mut as an update. -/
def Database.interfaceMut? (db : Database) (id : InterfaceID)
    (f : InterfaceData → InterfaceData) : Option Database :=
  (db.interface? id).map fun d => { db with interfaces := db.interfaces.set id.idx (f d) }

/-- Embeds Database::predicate_mut as an update. -/
def Database.predicateMut? (db : Database) (id : PredicateID)
    (f : PredicateData → PredicateData) : Option Database :=
  (db.predicate? id).map fun d => { db with predicates := db.predicates.set id.idx (f d) }

/-- Embeds Database::enum_item_mut as an update. -/
def Database.enumItemMut? (db : Database) (id : EnumItemID)
    (f : EnumItemData → EnumItemData) : Option Database :=
  (db.enum_item? id).map fun d => { db with enum_items := db.enum_items.set id.idx (f d) }

/-- Embeds Database::field_mut as an update. -/
def Database.fieldMut? (db : Database) (id : FieldID) (f : FieldData → FieldData) :
    Option Database :=
  (db.field? id).map fun d => { db with fields := db.fields.set id.idx (f d) }

/-- Embeds Database::generic_parameter_scope_mut as an update. -/
def Database.genericParameterScopeMut? (db : Database) (id : GenericParameterScopeID)
    (f : GenericParameterScopeData → GenericParameterScopeData) : Option Database :=
  (db.generic_parameter_scope? id).map fun d =>
    { db with generic_parameter_scopes := db.generic_parameter_scopes.set id.idx (f d) }

/-- Embeds Database::generic_parameter_mut as an update. -/
def Database.genericParameterMut? (db : Database) (id : GenericParameterID)
    (f : GenericParameterData → GenericParameterData) : Option Database :=
  (db.generic_parameter? id).map fun d =>
    { db with generic_parameters := db.generic_parameters.set id.idx (f d) }

/-- Embeds the macro-generated Database::contains_module: a pure bounds
check. -/
def Database.contains_module (db : Database) (id : ModuleID) : Bool :=
  id.idx < db.modules.length

/-- Embeds Database::contains_enum_module_item. -/
def Database.contains_enum_module_item (db : Database) (id : EnumID) : Bool :=
  id.idx < db.enums.length

/-- Embeds Database::contains_struct_module_item. -/
def Database.contains_struct_module_item (db : Database) (id : StructID) : Bool :=
  id.idx < db.structs.length

/-- Embeds Database::contains_tuple_like_struct. -/
def Database.contains_tuple_like_struct (db : Database) (id : TupleLikeStructID) : Bool :=
  id.idx < db.tuple_like_structs.length

/-- Embeds Database::contains_type_alias. -/
def Database.contains_type_alias (db : Database) (id : TypeAliasID) : Bool :=
  id.idx < db.type_aliases.length

/-- Embeds Database::contains_function. -/
def Database.contains_function (db : Database) (id : FunctionID) : Bool :=
  id.idx < db.functions.length

/-- Embeds Database::contains_interface. -/
def Database.contains_interface (db : Database) (id : InterfaceID) : Bool :=
  id.idx < db.interfaces.length

/-- Embeds Database::contains_predicate. -/
def Database.contains_predicate (db : Database) (id : PredicateID) : Bool :=
  id.idx < db.predicates.length

/-- Embeds Database::contains_enum_item. -/
def Database.contains_enum_item (db : Database) (id : EnumItemID) : Bool :=
  id.idx < db.enum_items.length

/-- Embeds Database::contains_field. -/
def Database.contains_field (db : Database) (id : FieldID) : Bool :=
  id.idx < db.fields.length

/-- Embeds Database::contains_generic_parameter_scope. -/
def Database.contains_generic_parameter_scope (db : Database)
    (id : GenericParameterScopeID) : Bool :=
  id.idx < db.generic_parameter_scopes.length

/-- Embeds Database::contains_generic_parameter. -/
def Database.contains_generic_parameter (db : Database) (id : GenericParameterID) : Bool :=
  id.idx < db.generic_parameters.length

/-- Embeds the macro-generated Database::add_module: appends and returns
the handle equal to the new length minus one. -/
def Database.add_module (db : Database) (d : ModuleData) : ModuleID × Database :=
  (⟨db.modules.length⟩, { db with modules := db.modules ++ [d] })

/-- Embeds Database::add_enum_module_item. -/
def Database.add_enum_module_item (db : Database) (d : EnumData) : EnumID × Database :=
  (⟨db.enums.length⟩, { db with enums := db.enums ++ [d] })

/-- Embeds Database::add_struct_module_item. -/
def Database.add_struct_module_item (db : Database) (d : StructData) : StructID × Database :=
  (⟨db.structs.length⟩, { db with structs := db.structs ++ [d] })

/-- Embeds Database::add_tuple_like_struct. -/
def Database.add_tuple_like_struct (db : Database) (d : TupleLikeStructData) :
    TupleLikeStructID × Database :=
  (⟨db.tuple_like_structs.length⟩,
    { db with tuple_like_structs := db.tuple_like_structs ++ [d] })

/-- Embeds Database::add_type_alias. -/
def Database.add_type_alias (db : Database) (d : TypeAliasData) : TypeAliasID × Database :=
  (⟨db.type_aliases.length⟩, { db with type_aliases := db.type_aliases ++ [d] })

/-- Embeds Database::add_function. -/
def Database.add_function (db : Database) (d : FunctionData) : FunctionID × Database :=
  (⟨db.functions.length⟩, { db with functions := db.functions ++ [d] })

/-- Embeds Database::add_interface. -/
def Database.add_interface (db : Database) (d : InterfaceData) : InterfaceID × Database :=
  (⟨db.interfaces.length⟩, { db with interfaces := db.interfaces ++ [d] })

/-- Embeds Database::add_predicate. -/
def Database.add_predicate (db : Database) (d : PredicateData) : PredicateID × Database :=
  (⟨db.predicates.length⟩, { db with predicates := db.predicates ++ [d] })

/-- Embeds Database::add_enum_item. -/
def Database.add_enum_item (db : Database) (d : EnumItemData) : EnumItemID × Database :=
  (⟨db.enum_items.length⟩, { db with enum_items := db.enum_items ++ [d] })

/-- Embeds Database::add_field. -/
def Database.add_field (db : Database) (d : FieldData) : FieldID × Database :=
  (⟨db.fields.length⟩, { db with fields := db.fields ++ [d] })

/-- Embeds Database::add_generic_parameter_scope. -/
def Database.add_generic_parameter_scope (db : Database) (d : GenericParameterScopeData) :
    GenericParameterScopeID × Database :=
  (⟨db.generic_parameter_scopes.length⟩,
    { db with generic_parameter_scopes := db.generic_parameter_scopes ++ [d] })

/-- Embeds Database::add_generic_parameter. -/
def Database.add_generic_parameter (db : Database) (d : GenericParameterData) :
    GenericParameterID × Database :=
  (⟨db.generic_parameters.length⟩,
    { db with generic_parameters := db.generic_parameters ++ [d] })

/-- Embeds Symbol::name: looks up the name of the entity the symbol
refers to; a Module symbol gets DUMMY_LOCATION.  Source panics on an
invalid handle; the embedding returns none. -/
def Symbol.name? (self : Symbol) (db : Database) : Option IdentifierAST :=
  match self with
  | .module m => (db.module? m).map fun d => ⟨DUMMY_LOCATION, d.name⟩
  | .enum e => (db.enum_module_item? e).map (·.name)
  | .struct s => (db.struct_module_item? s).map (·.name)
  | .function f => (db.function? f).map (·.name)
  | .interface i => (db.interface? i).map (·.name)
  | .tuple_like_struct s => (db.tuple_like_struct? s).map (·.name)
  | .type_alias a => (db.type_alias? a).map (·.name)
  | .enum_item i => (db.enum_item? i).map (·.name)

/-- Embeds ModuleID::module_item_symbol: lookup in the declared-item map
only. -/
def ModuleID.module_item_symbol (self : ModuleID) (db : Database) (item_name : Nat) :
    Option Symbol :=
  (db.module? self).bind fun m => lookupKey m.module_item_symbols item_name

/-- Embeds ModuleID::submodule. -/
def ModuleID.submodule (self : ModuleID) (db : Database) (name : Nat) : Option ModuleID :=
  (db.module? self).bind fun m => lookupKey m.submodules name

/-- Embeds ModuleID::symbol: declared item first, else the submodule of
that name wrapped as a Module symbol.  The resolved-import map is not
consulted. -/
def ModuleID.symbol (self : ModuleID) (db : Database) (name : Nat) : Option Symbol :=
  (self.module_item_symbol db name).or ((self.submodule db name).map Symbol.module)

/-- Embeds ModuleID::add_module_item: insert-or-overwrite into the
declared-item map of the module. -/
def ModuleID.add_module_item (self : ModuleID) (db : Database) (name : Nat)
    (symbol : Symbol) : Database :=
  { db with
    modules := listModify
      (fun m => { m with module_item_symbols := (name, symbol) :: m.module_item_symbols })
      self.idx db.modules }

/-- Embeds ModuleID::contains_module_item_symbol. -/
def ModuleID.contains_module_item_symbol (self : ModuleID) (db : Database)
    (item_name : Nat) : Bool :=
  ((db.module? self).bind fun m => lookupKey m.module_item_symbols item_name).isSome

/-- Embeds ModuleID::resolved_imports lookup (the separate import map). -/
def ModuleID.resolved_import (self : ModuleID) (db : Database) (name : Nat) :
    Option Symbol :=
  (db.module? self).bind fun m => lookupKey m.resolved_imports name

/-- Embeds ModuleID::add_resolved_import: insert-or-overwrite into the
resolved-import map only. -/
def ModuleID.add_resolved_import (self : ModuleID) (db : Database) (name : Nat)
    (symbol : Symbol) : Database :=
  { db with
    modules := listModify
      (fun m => { m with resolved_imports := (name, symbol) :: m.resolved_imports })
      self.idx db.modules }

/-- Replaces the whole resolved-import map of one module, leaving every
other field of the database unchanged.  Used to state that symbol lookup
never consults resolved imports. -/
def Database.setResolvedImports (db : Database) (m : ModuleID)
    (imports : List (Nat × Symbol)) : Database :=
  { db with
    modules := listModify (fun d => { d with resolved_imports := imports }) m.idx db.modules }

/-- Embeds GenericParameterScopeID::parent_scope (panic becomes none,
flattened with the absent-parent case). -/
def GenericParameterScopeID.parent_scope (self : GenericParameterScopeID) (db : Database) :
    Option GenericParameterScopeID :=
  (db.generic_parameter_scope? self).bind (·.parent_scope)

/-- Embeds GenericParameterScopeID::add_generic_parameter: inserts into
the local scope only. -/
def GenericParameterScopeID.add_generic_parameter (self : GenericParameterScopeID)
    (db : Database) (parameter_name : Nat) (parameter : GenericParameterID) :
    Option Database :=
  db.genericParameterScopeMut? self fun d =>
    { d with parameters := (parameter_name, parameter) :: d.parameters }

/-- Embeds GenericParameterScopeID::resolve, made total with explicit
fuel.  The outer Option is the abnormal marker: none means the walk ran
out of fuel or dereferenced an invalid scope handle (a source panic);
some r means the source returns r.  The walk checks the local parameter
map first and only then delegates to the parent scope. -/
def GenericParameterScopeID.resolveFuel (db : Database) :
    Nat → GenericParameterScopeID → Nat → Option (Option GenericParameterID)
  | 0, _, _ => none
  | fuel + 1, self, parameter_name =>
    match db.generic_parameter_scope? self with
    | none => none
    | some data =>
      match lookupKey data.parameters parameter_name with
      | some parameter_id => some (some parameter_id)
      | none =>
        match data.parent_scope with
        | some parent_scope_id => resolveFuel db fuel parent_scope_id parameter_name
        | none => some none

/-- Embeds GenericParameterScopeID::contains, made total with explicit
fuel the same way as resolveFuel. -/
def GenericParameterScopeID.containsFuel (db : Database) :
    Nat → GenericParameterScopeID → Nat → Option Bool
  | 0, _, _ => none
  | fuel + 1, self, parameter_name =>
    match db.generic_parameter_scope? self with
    | none => none
    | some data =>
      if (lookupKey data.parameters parameter_name).isSome then
        some true
      else
        match data.parent_scope with
        | some parent_scope_id => containsFuel db fuel parent_scope_id parameter_name
        | none => some false

/-- All parent links of generic parameter scopes strictly decrease the
arena index.  This is the acyclicity discipline of the scope chain: a
scope handle is allocated after its parent, so parent links point
strictly downwards. -/
def Database.parentsDecrease (db : Database) : Bool :=
  db.generic_parameter_scopes.enum.all fun p =>
    match p.2.parent_scope with
    | some parent => parent.idx < p.1
    | none => true

/-- The given parameter name is declared in no generic parameter scope of
the database at all. -/
def Database.nameUndeclared (db : Database) (parameter_name : Nat) : Bool :=
  db.generic_parameter_scopes.all fun s => (lookupKey s.parameters parameter_name).isNone

/-- The local parameter map lookup of one scope (dereference failure
becomes none). -/
def scopeParam? (db : Database) (s : GenericParameterScopeID) (parameter_name : Nat) :
    Option GenericParameterID :=
  (db.generic_parameter_scope? s).bind fun d => lookupKey d.parameters parameter_name

/-- The list of scope handles is a parent-linked chain, leaf first: every
element but the last has the next element as its parent scope. -/
def chainLinked (db : Database) : List GenericParameterScopeID → Bool
  | [] => true
  | [_] => true
  | s :: s' :: rest =>
    (match (db.generic_parameter_scope? s).bind (·.parent_scope) with
     | some p => p = s'
     | none => false) && chainLinked db (s' :: rest)

/-- Embeds the structured diagnostic records the definition collector can
emit (stellar_typechecker diagnostics): the duplicate-definition records,
each carrying the clashing name, the location of the first binding of the
name and the location of the new one. -/
inductive Diagnostic : Type where
  | itemDefinedMultipleTimes (name : Nat) (first_definition_location : Location)
      (second_definition_location : Location)
  | enumItemDefinedMultipleTimes (enum_name : Nat) (item_name : Nat)
      (first_definition_location : Location) (second_definition_location : Location)
deriving DecidableEq, Repr

/-- Recognises an ItemDefinedMultipleTimes record in the diagnostics
stream (each entry pairs the file path the diagnostic was filed under
with the record). -/
def isItemDup : Nat × Diagnostic → Bool
  | (_, Diagnostic.itemDefinedMultipleTimes _ _ _) => true
  | _ => false

/-- Embeds the State struct: the database plus the diagnostics sink,
which the embedding keeps as the list of filed (file path, record) pairs
in emission order. -/
structure State : Type where
  db : Database
  diagnostics : List (Nat × Diagnostic)

/-- Embeds the lowered module items the collector walks
(stellar_hir module items, an input boundary of this core).
Modelled from the spec: the stellar_hir crate is not under src/; per the
spec each declaration carries its name with source location, its
visibility, and (for an enum) its ordered item list.  The other
constructor stands for the arms the collector skips. -/
inductive ModuleItemHir : Type where
  | enum (visibility : Visibility) (name : IdentifierAST) (items : List IdentifierAST)
  | function (visibility : Visibility) (name : IdentifierAST)
  | struct (visibility : Visibility) (name : IdentifierAST)
  | interface (visibility : Visibility) (name : IdentifierAST)
  | tuple_like_struct (visibility : Visibility) (name : IdentifierAST)
  | type_alias (visibility : Visibility) (name : IdentifierAST)
  | other
deriving Repr

/-- The name of a collected module item; none for the skipped arms. -/
def ModuleItemHir.name? : ModuleItemHir → Option IdentifierAST
  | .enum _ name _ => some name
  | .function _ name => some name
  | .struct _ name => some name
  | .interface _ name => some name
  | .tuple_like_struct _ name => some name
  | .type_alias _ name => some name
  | .other => none

/-- Embeds CollectDefinitions::check_for_duplicate_definition: if the
owning module already binds the name, file one ItemDefinedMultipleTimes
record (under the file path of the new name) carrying the location of the
existing binding's name and the new location.  The source panics when the
existing symbol's handle is invalid; the embedding leaves the state
unchanged in that case. -/
def check_for_duplicate_definition (st : State) (module : ModuleID)
    (name : IdentifierAST) : State :=
  match module.module_item_symbol st.db name.id with
  | some symbol =>
    match symbol.name? st.db with
    | some original =>
      { st with
        diagnostics := st.diagnostics ++
          [(name.location.filepath,
            Diagnostic.itemDefinedMultipleTimes name.id original.location name.location)] }
    | none => st
  | none => st

/-- Embeds CollectDefinitions::check_for_duplicate_enum_item: checked
against the enum's own accumulating item map. -/
def check_for_duplicate_enum_item (st : State) (enum_data : EnumData)
    (item_name : IdentifierAST) : State :=
  match lookupKey enum_data.items item_name.id with
  | some enum_item =>
    match (st.db.enum_item? enum_item).map (·.name) with
    | some original =>
      { st with
        diagnostics := st.diagnostics ++
          [(item_name.location.filepath,
            Diagnostic.enumItemDefinedMultipleTimes enum_data.name.id item_name.id
              original.location item_name.location)] }
    | none => st
  | none => st

/-- Embeds the enum-item loop of CollectDefinitions::define_enum: for
each item, duplicate-check against the accumulating enum data, allocate
the enum item entity, and record the handle in the enum data. -/
def define_enum_items (module : ModuleID) :
    State → EnumData → List IdentifierAST → State × EnumData
  | st, enum_data, [] => (st, enum_data)
  | st, enum_data, name :: rest =>
    let st1 := check_for_duplicate_enum_item st enum_data name
    let alloc := st1.db.add_enum_item ⟨name, module⟩
    let enum_data1 := { enum_data with items := (name.id, alloc.1) :: enum_data.items }
    define_enum_items module { st1 with db := alloc.2 } enum_data1 rest

/-- Embeds CollectDefinitions::define_enum: walk the items, then
duplicate-check the enum name against the module, then allocate the enum
and install the binding (overwriting any earlier one). -/
def define_enum (st : State) (module : ModuleID) (visibility : Visibility)
    (name : IdentifierAST) (items : List IdentifierAST) : State :=
  let walked := define_enum_items module st (EnumData.new visibility name module) items
  let st1 := check_for_duplicate_definition walked.1 module name
  let alloc := st1.db.add_enum_module_item walked.2
  { st1 with db := module.add_module_item alloc.2 name.id (Symbol.enum alloc.1) }

/-- Embeds CollectDefinitions::define_function: allocate, duplicate-check,
install the binding. -/
def define_function (st : State) (module : ModuleID) (visibility : Visibility)
    (name : IdentifierAST) : State :=
  let alloc := st.db.add_function ⟨name, visibility, module⟩
  let st1 := check_for_duplicate_definition { st with db := alloc.2 } module name
  { st1 with db := module.add_module_item st1.db name.id (Symbol.function alloc.1) }

/-- Embeds CollectDefinitions::define_struct. -/
def define_struct (st : State) (module : ModuleID) (visibility : Visibility)
    (name : IdentifierAST) : State :=
  let alloc := st.db.add_struct_module_item (StructData.new visibility name module)
  let st1 := check_for_duplicate_definition { st with db := alloc.2 } module name
  { st1 with db := module.add_module_item st1.db name.id (Symbol.struct alloc.1) }

/-- Embeds CollectDefinitions::define_tuple_like_struct. -/
def define_tuple_like_struct (st : State) (module : ModuleID) (visibility : Visibility)
    (name : IdentifierAST) : State :=
  let alloc := st.db.add_tuple_like_struct (TupleLikeStructData.new visibility name module)
  let st1 := check_for_duplicate_definition { st with db := alloc.2 } module name
  { st1 with db := module.add_module_item st1.db name.id (Symbol.tuple_like_struct alloc.1) }

/-- Embeds CollectDefinitions::define_interface. -/
def define_interface (st : State) (module : ModuleID) (visibility : Visibility)
    (name : IdentifierAST) : State :=
  let alloc := st.db.add_interface (InterfaceData.new visibility name module)
  let st1 := check_for_duplicate_definition { st with db := alloc.2 } module name
  { st1 with db := module.add_module_item st1.db name.id (Symbol.interface alloc.1) }

/-- Embeds CollectDefinitions::define_type_alias. -/
def define_type_alias (st : State) (module : ModuleID) (visibility : Visibility)
    (name : IdentifierAST) : State :=
  let alloc := st.db.add_type_alias (TypeAliasData.new visibility name module)
  let st1 := check_for_duplicate_definition { st with db := alloc.2 } module name
  { st1 with db := module.add_module_item st1.db name.id (Symbol.type_alias alloc.1) }

/-- Embeds the dispatch of CollectDefinitions::run over one module item. -/
def defineItem (st : State) (module : ModuleID) : ModuleItemHir → State
  | .enum visibility name items => define_enum st module visibility name items
  | .function visibility name => define_function st module visibility name
  | .struct visibility name => define_struct st module visibility name
  | .interface visibility name => define_interface st module visibility name
  | .tuple_like_struct visibility name => define_tuple_like_struct st module visibility name
  | .type_alias visibility name => define_type_alias st module visibility name
  | .other => st

/-- Embeds CollectDefinitions::run: fold the dispatch over the item list
of one lowered module. -/
def collectRun (st : State) (module : ModuleID) (items : List ModuleItemHir) : State :=
  items.foldl (fun s item => defineItem s module item) st

/-- The symbol a collected item is installed under: the next free handle
of the arena of its kind.  For an enum the enum-item walk touches only
the enum_items arena, so the enum arena length is still the one of the
starting database. -/
def definedSymbol (db : Database) : ModuleItemHir → Symbol
  | .enum _ _ _ => Symbol.enum ⟨db.enums.length⟩
  | .function _ _ => Symbol.function ⟨db.functions.length⟩
  | .struct _ _ => Symbol.struct ⟨db.structs.length⟩
  | .interface _ _ => Symbol.interface ⟨db.interfaces.length⟩
  | .tuple_like_struct _ _ => Symbol.tuple_like_struct ⟨db.tuple_like_structs.length⟩
  | .type_alias _ _ => Symbol.type_alias ⟨db.type_aliases.length⟩
  | .other => Symbol.module ⟨0⟩

end Stellar

namespace Ry

/-- Embeds the ry_filesystem location used by the type resolver: a file
path ID plus a byte range. -/
structure Location : Type where
  file_path_id : Nat
  startByte : Nat
  endByte : Nat
deriving DecidableEq, Repr

/-- Embeds ry_ast IdentifierAST. -/
structure IdentifierAST : Type where
  location : Location
  id : Nat
deriving DecidableEq, Repr

/-- Embeds the ry_thir generic parameter scope consumed by the type
resolver.
Modelled from the spec: the ry_thir crate is not under src/; per the spec
a scope holds only its own parameters plus an optional parent, and
contains is the innermost-first boolean walk of that chain. -/
inductive GenericParameterScope : Type where
  | mk (parent_scope : Option GenericParameterScope)
       (parameters : List (Nat × Nat))

/-- Embeds GenericParameterScope::contains: local map first, then the
parent chain. -/
def GenericParameterScope.contains : GenericParameterScope → Nat → Bool
  | .mk parent_scope parameters, name =>
    (lookupKey parameters name).isSome ||
      (match parent_scope with
       | some parent => parent.contains name
       | none => false)

/-- Embeds ry_name_resolution DefinitionID: a module item identified by
its name and owning module. -/
structure DefinitionID : Type where
  name_id : Nat
  module_id : Nat
deriving DecidableEq, Repr

/-- Embeds ry_name_resolution NameBinding.
Modelled from the spec: the ry_name_resolution crate is not under src/;
per the spec a resolved name denotes a package root, a module, a declared
module item, or an enum item. -/
inductive NameBinding : Type where
  | package (name_id : Nat)
  | module (module_id : Nat)
  | moduleItem (definition_id : DefinitionID)
  | enumItem (enum_definition_id : DefinitionID) (item_id : Nat)
deriving DecidableEq, Repr

/-- Embeds NameBindingKind, the kind tag NameBinding::kind returns. -/
inductive NameBindingKind : Type where
  | package
  | module
  | moduleItem
  | enumItem
deriving DecidableEq, Repr

/-- Embeds NameBinding::kind. -/
def NameBinding.kind : NameBinding → NameBindingKind
  | .package _ => .package
  | .module _ => .module
  | .moduleItem _ => .moduleItem
  | .enumItem _ _ => .enumItem

/-- Embeds NameBindingKind::is_module_item. -/
def NameBindingKind.is_module_item : NameBindingKind → Bool
  | .moduleItem => true
  | _ => false

/-- Embeds ry_thir ModuleItemSignature.
Modelled from the spec: the ry_thir crate is not under src/; a signature
is the resolved shape of one declared entity, so its kind follows the
entity kind.  The payloads are irrelevant to the resolver and are kept
opaque. -/
inductive ModuleItemSignature : Type where
  | function (payload : Nat)
  | struct (payload : Nat)
  | tupleLikeStruct (payload : Nat)
  | enum (payload : Nat)
  | interface (payload : Nat)
  | typeAlias (payload : Nat)
deriving DecidableEq, Repr

/-- Whether a signature is an interface signature. -/
def ModuleItemSignature.isInterface : ModuleItemSignature → Bool
  | .interface _ => true
  | _ => false

/-- Embeds the diagnostic records the type resolver and the path
resolver file: ExpectedType with the offending location and the binding
kind found, and PathNotFound from path resolution. -/
inductive Diag : Type where
  | expectedType (file_path_id : Nat) (location : Location) (kind : NameBindingKind)
  | pathNotFound (location : Location) (name_id : Nat)
deriving DecidableEq, Repr

/-- The outcome of one resolver call: a normal return together with the
diagnostics emitted along the way, or a reached panic site (todo,
unreachable, or a failed unwrap), also with the diagnostics emitted
before it. -/
inductive PanicKind : Type where
  | todoHit
  | unreachableHit
  | unwrapNoneHit
deriving DecidableEq, Repr

/-- Result of an embedded resolver call: ret is the value the source
returns plus the diagnostics it emitted in order; panic marks that the
source aborts at a panic site. -/
inductive RRes (α : Type) : Type where
  | ret (val : α) (diags : List Diag)
  | panic (kind : PanicKind) (diags : List Diag)
deriving DecidableEq, Repr

/-- A resolver call that returns (does not reach a panic site). -/
def RRes.IsRet {α : Type} : RRes α → Prop
  | .ret _ _ => True
  | .panic _ _ => False

mutual
/-- Embeds the ry_hir type expression tree consumed by the resolver:
constructor path, tuple, function, or interface object.
Modelled from the spec: the ry_hir crate is not under src/; the shapes
and payloads here are the ones the resolver in src destructures. -/
inductive HirType : Type where
  | constructor (c : HirTypeConstructor)
  | tuple (location : Location) (element_types : List HirType)
  | function (location : Location) (parameter_types : List HirType) (return_type : HirType)
  | interfaceObject (location : Location) (bounds : List HirTypeConstructor)

/-- Embeds ry_hir TypeConstructor: a located path of identifiers plus
type arguments. -/
inductive HirTypeConstructor : Type where
  | mk (location : Location) (path : List IdentifierAST) (arguments : List HirType)
end

/-- The location of a hir type constructor. -/
def HirTypeConstructor.location : HirTypeConstructor → Location
  | .mk l _ _ => l

/-- The path of a hir type constructor. -/
def HirTypeConstructor.pathIdents : HirTypeConstructor → List IdentifierAST
  | .mk _ p _ => p

/-- The arguments of a hir type constructor. -/
def HirTypeConstructor.args : HirTypeConstructor → List HirType
  | .mk _ _ a => a

/-- Embeds the slice of TypeCheckingContext the resolver reads.
The two fields stand for collaborators whose code is not under src/:
resolvePath is modelled from the spec (section 4.5): resolving a path
either yields a binding or fails, filing its own diagnostics (such as
PathNotFound) into the shared sink, here returned alongside;
resolveSignature is modelled from the spec (glossary, Signature): it
yields the resolved signature of the entity a binding names, or nothing
when that fails.  Both are kept abstract so every theorem below holds
for every possible behaviour of these collaborators. -/
structure TypeCheckingContext : Type where
  resolvePath : List IdentifierAST → Option NameBinding × List Diag
  resolveSignature : NameBinding → Option ModuleItemSignature

/-- Embeds TypeCheckingContext::resolve_type_constructor.  First the
generic-parameter shortcut: a single-segment path with no arguments whose
identifier the scope chain contains becomes a generic-parameter
reference, with no path resolution.  Otherwise the path is resolved; a
failed resolution returns nothing; a binding that is not a module item
files one ExpectedType diagnostic (offending location plus the kind
found) and returns nothing; a module-item binding reaches the todo panic
site of the source. -/
def resolve_type_constructor (ctx : TypeCheckingContext)
    (generic_parameter_scope : GenericParameterScope) (ty : HirTypeConstructor) :
    RRes (Option TypeConstructor) :=
  match ty with
  | .mk location path arguments =>
    match path with
    | [] => RRes.panic PanicKind.unwrapNoneHit []
    | first :: rest =>
      if rest.isEmpty && arguments.isEmpty && generic_parameter_scope.contains first.id then
        RRes.ret (some (TypeConstructor.mk [first.id] [])) []
      else
        match ctx.resolvePath path with
        | (none, ds) => RRes.ret none ds
        | (some name_binding, ds) =>
          if name_binding.kind.is_module_item = false then
            RRes.ret none
              (ds ++ [Diag.expectedType location.file_path_id location name_binding.kind])
          else
            RRes.panic PanicKind.todoHit ds

mutual
/-- Embeds TypeCheckingContext::resolve_type: recursive descent over the
hir type expression.  Tuples and functions collect their component types
and fail as a whole on the first failing component; an interface object
filters its bounds through resolve_bounds and fails when the filtered
set is empty. -/
def resolve_type (ctx : TypeCheckingContext)
    (generic_parameter_scope : GenericParameterScope) :
    HirType → RRes (Option Ty)
  | .constructor c =>
    match resolve_type_constructor ctx generic_parameter_scope c with
    | .ret (some constructor) ds => .ret (some (Ty.constructor constructor)) ds
    | .ret none ds => .ret none ds
    | .panic k ds => .panic k ds
  | .tuple _ element_types =>
    match resolve_types ctx generic_parameter_scope element_types with
    | .ret (some tys) ds => .ret (some (Ty.tuple tys)) ds
    | .ret none ds => .ret none ds
    | .panic k ds => .panic k ds
  | .function _ parameter_types return_type =>
    match resolve_types ctx generic_parameter_scope parameter_types with
    | .ret (some ptys) ds =>
      (match resolve_type ctx generic_parameter_scope return_type with
       | .ret (some rty) ds2 => .ret (some (Ty.function ptys rty)) (ds ++ ds2)
       | .ret none ds2 => .ret none (ds ++ ds2)
       | .panic k ds2 => .panic k (ds ++ ds2))
    | .ret none ds => .ret none ds
    | .panic k ds => .panic k ds
  | .interfaceObject _ bounds =>
    match resolve_bounds ctx generic_parameter_scope bounds with
    | .ret bs ds =>
      if bs.isEmpty then .ret none ds else .ret (some (Ty.interfaceObject bs)) ds
    | .panic k ds => .panic k ds

/-- Embeds the element-wise collection used for tuple elements, function
parameter lists and type arguments (collect over Option in the source):
resolve each in order, stopping at the first element that fails. -/
def resolve_types (ctx : TypeCheckingContext)
    (generic_parameter_scope : GenericParameterScope) :
    List HirType → RRes (Option (List Ty))
  | [] => .ret (some []) []
  | t :: ts =>
    match resolve_type ctx generic_parameter_scope t with
    | .ret (some ty) ds =>
      (match resolve_types ctx generic_parameter_scope ts with
       | .ret (some tys) ds2 => .ret (some (ty :: tys)) (ds ++ ds2)
       | .ret none ds2 => .ret none (ds ++ ds2)
       | .panic k ds2 => .panic k (ds ++ ds2))
    | .ret none ds => .ret none ds
    | .panic k ds => .panic k ds

/-- Embeds TypeCheckingContext::resolve_interface: resolve the path to a
binding (nothing on failure), resolve its signature (nothing on failure),
then match: an interface signature yields the constructor with its
arguments resolved recursively through resolve_types; any other
signature reaches the unreachable panic site of the source. -/
def resolve_interface (ctx : TypeCheckingContext)
    (generic_parameter_scope : GenericParameterScope) (interface : HirTypeConstructor) :
    RRes (Option TypeConstructor) :=
  match interface with
  | .mk _ path arguments =>
    match ctx.resolvePath path with
    | (none, ds) => .ret none ds
    | (some name_binding, ds) =>
      match ctx.resolveSignature name_binding with
      | none => .ret none ds
      | some signature =>
        match signature with
        | .interface _ =>
          (match resolve_types ctx generic_parameter_scope arguments with
           | .ret (some args) ds2 =>
             .ret (some (TypeConstructor.mk (path.map (·.id)) args)) (ds ++ ds2)
           | .ret none ds2 => .ret none (ds ++ ds2)
           | .panic k ds2 => .panic k (ds ++ ds2))
        | _ => .panic PanicKind.unreachableHit ds

/-- Embeds TypeCheckingContext::resolve_bounds: filter the bound list
through resolve_interface, keeping exactly the bounds that resolve. -/
def resolve_bounds (ctx : TypeCheckingContext)
    (generic_parameter_scope : GenericParameterScope) :
    List HirTypeConstructor → RRes (List TypeConstructor)
  | [] => .ret [] []
  | b :: bs =>
    match resolve_interface ctx generic_parameter_scope b with
    | .ret (some constructor) ds =>
      (match resolve_bounds ctx generic_parameter_scope bs with
       | .ret constructors ds2 => .ret (constructor :: constructors) (ds ++ ds2)
       | .panic k ds2 => .panic k (ds ++ ds2))
    | .ret none ds =>
      (match resolve_bounds ctx generic_parameter_scope bs with
       | .ret constructors ds2 => .ret constructors (ds ++ ds2)
       | .panic k ds2 => .panic k (ds ++ ds2))
    | .panic k ds => .panic k ds
end

/-- Embeds TypeCheckingContext::resolve_type_arguments, which collects
the argument types the same way as tuple elements. -/
def resolve_type_arguments (ctx : TypeCheckingContext)
    (generic_parameter_scope : GenericParameterScope) (hir : List HirType) :
    RRes (Option (List Ty)) :=
  resolve_types ctx generic_parameter_scope hir

/-- The value component a bound contributes to a filtered bound list:
its resolved constructor, or nothing when it is dropped (panic is also
mapped to nothing here; the theorems using this function assume no panic
separately). -/
def interfaceResultOf (ctx : TypeCheckingContext)
    (generic_parameter_scope : GenericParameterScope) (b : HirTypeConstructor) :
    Option TypeConstructor :=
  match resolve_interface ctx generic_parameter_scope b with
  | .ret o _ => o
  | .panic _ _ => none

/-- The diagnostics one bound contributes during bound filtering. -/
def interfaceDiagsOf (ctx : TypeCheckingContext)
    (generic_parameter_scope : GenericParameterScope) (b : HirTypeConstructor) :
    List Diag :=
  match resolve_interface ctx generic_parameter_scope b with
  | .ret _ ds => ds
  | .panic _ ds => ds

end Ry

namespace Stellar

/-- Concrete input for the duplicate-definition claim: the name of the
already-collected function (interned id 5, written at file 1). -/
def w1old : IdentifierAST := ⟨⟨1, 10, 13⟩, 5⟩

/-- Concrete input: the clashing new function name (same interned id 5,
written at file 2). -/
def w1name : IdentifierAST := ⟨⟨2, 20, 23⟩, 5⟩

/-- Concrete database: one module whose item map already binds id 5 to
the function with handle 0. -/
def w1db : Database :=
  { Database.new with
    modules := [⟨0, 0, [(5, Symbol.function ⟨0⟩)], [], []⟩],
    functions := [⟨w1old, Visibility.pub, ⟨0⟩⟩] }

/-- Concrete collector state for the duplicate-definition claim. -/
def w1st : State := ⟨w1db, []⟩

/-- Concrete database for the symbol-lookup claim: one module with a
declared item under id 5, a submodule under id 6, and a resolved import
under id 7. -/
def w6db : Database :=
  { Database.new with
    modules := [⟨0, 0, [(5, Symbol.function ⟨0⟩)], [(6, ⟨0⟩)], [(7, Symbol.function ⟨9⟩)]⟩] }

/-- Concrete module data of the single module of w6db. -/
def w6md : ModuleData := ⟨0, 0, [(5, Symbol.function ⟨0⟩)], [(6, ⟨0⟩)], [(7, Symbol.function ⟨9⟩)]⟩

/-- Concrete database for the scope-chain claims: scope 0 is the root and
declares parameter name 7 as handle 0; scope 1 is its child and also
declares name 7, as handle 1. -/
def w8db : Database :=
  { Database.new with
    generic_parameter_scopes :=
      [⟨none, [(7, ⟨0⟩)]⟩, ⟨some ⟨0⟩, [(7, ⟨1⟩)]⟩] }

end Stellar

namespace Ry

/-- The empty generic parameter scope. -/
def emptyScope : GenericParameterScope := .mk none []

/-- A generic parameter scope declaring parameter name 7. -/
def w5scope : GenericParameterScope := .mk none [(7, 0)]

/-- A context whose path resolution always yields a module-item binding
(one whose resolved signature is a function signature): the concrete
input on which the ExpectedType claim fails. -/
def c2ctx : TypeCheckingContext :=
  ⟨fun _ => (some (NameBinding.moduleItem ⟨5, 0⟩), []),
   fun _ => some (ModuleItemSignature.function 0)⟩

/-- The single-segment path naming the function, as a hir type
constructor. -/
def c2tc : HirTypeConstructor := .mk ⟨0, 0, 3⟩ [⟨⟨0, 0, 3⟩, 5⟩] []

/-- A context whose path resolution always yields a module binding (not a
module item): the concrete input for the amended ExpectedType claim. -/
def w2ctx : TypeCheckingContext :=
  ⟨fun _ => (some (NameBinding.module 3), []), fun _ => none⟩

/-- A context resolving every path to a module-item binding whose
signature is an interface. -/
def w3ctx : TypeCheckingContext :=
  ⟨fun _ => (some (NameBinding.moduleItem ⟨1, 0⟩), []),
   fun _ => some (ModuleItemSignature.interface 0)⟩

/-- A context resolving every path to a module-item binding whose
signature is a struct signature: the concrete input on which the
graceful-failure claim for interface resolution fails. -/
def c3ctx : TypeCheckingContext :=
  ⟨fun _ => (some (NameBinding.moduleItem ⟨2, 0⟩), []),
   fun _ => some (ModuleItemSignature.struct 0)⟩

/-- A hir bound whose path is the single identifier 5. -/
def w3bound : HirTypeConstructor := .mk ⟨0, 0, 3⟩ [⟨⟨0, 0, 3⟩, 5⟩] []

/-- A context for the bound-filtering witness: the path of identifier 1
resolves to an interface, the path of identifier 2 fails with a
PathNotFound diagnostic, and the path of identifier 3 fails silently. -/
def w4ctx : TypeCheckingContext :=
  ⟨fun path =>
     match path with
     | [single] =>
       if single.id = 1 then (some (NameBinding.moduleItem ⟨1, 0⟩), [])
       else if single.id = 2 then (none, [Diag.pathNotFound single.location single.id])
       else (none, [])
     | _ => (none, []),
   fun _ => some (ModuleItemSignature.interface 0)⟩

/-- The three bounds of the bound-filtering witness. -/
def w4bounds : List HirTypeConstructor :=
  [.mk ⟨0, 0, 1⟩ [⟨⟨0, 0, 1⟩, 1⟩] [],
   .mk ⟨0, 2, 3⟩ [⟨⟨0, 2, 3⟩, 2⟩] [],
   .mk ⟨0, 4, 5⟩ [⟨⟨0, 4, 5⟩, 3⟩] []]

/-- A context for the dropped-argument witness: the path of identifier 1
resolves to an interface binding, every other path fails silently. -/
def w10ctx : TypeCheckingContext :=
  ⟨fun path =>
     match path with
     | [single] =>
       if single.id = 1 then (some (NameBinding.moduleItem ⟨1, 0⟩), [])
       else (none, [])
     | _ => (none, []),
   fun _ => some (ModuleItemSignature.interface 0)⟩

/-- A bound whose head resolves to an interface but whose single type
argument is an interface object with one unresolvable bound, so the
argument fails to resolve. -/
def w10bound : HirTypeConstructor :=
  .mk ⟨0, 0, 1⟩ [⟨⟨0, 0, 1⟩, 1⟩]
    [HirType.interfaceObject ⟨0, 2, 3⟩ [.mk ⟨0, 2, 3⟩ [⟨⟨0, 2, 3⟩, 9⟩] []]]

end Ry

-- Helper lemmas and claim theorems follow.

theorem lookupKey_cons_self {α : Type} (m : List (Nat × α)) (k : Nat) (v : α) :
    lookupKey ((k, v) :: m) k = some v := by
  simp [lookupKey]

theorem get?_some_lt {α : Type} {l : List α} {i : Nat} {a : α} (h : l[i]? = some a) :
    i < l.length := by
  rcases List.getElem?_eq_some.1 h with ⟨h1, _⟩
  exact h1

theorem get?_append_some {α : Type} {l : List α} (t : List α) {i : Nat} {a : α}
    (h : l[i]? = some a) : (l ++ t)[i]? = some a := by
  rw [List.getElem?_append_left (get?_some_lt h)]
  exact h

theorem listModify_get?_self {α : Type} (f : α → α) :
    ∀ (i : Nat) (l : List α), (listModify f i l)[i]? = (l[i]?).map f
  | _, [] => by simp [listModify]
  | 0, _ :: _ => by simp [listModify]
  | i + 1, _ :: rest => by
    simp [listModify, listModify_get?_self f i rest]

namespace Stellar

/-- Claim C6: for every module and name, symbol lookup returns the
declared item when present and otherwise the same-named submodule
wrapped as a Module symbol, and it is unaffected by any change to the
module's resolved-import map. -/
theorem claim_C6 (db : Database) (m : ModuleID) (name : Nat) (md : ModuleData)
    (h : db.module? m = some md) :
    ModuleID.symbol m db name =
      ((lookupKey md.module_item_symbols name).or
        ((lookupKey md.submodules name).map Symbol.module)) ∧
    ∀ imports, ModuleID.symbol m (db.setResolvedImports m imports) name =
      ModuleID.symbol m db name := by
  have h2 : ∀ imports, (db.setResolvedImports m imports).module? m =
      some { md with resolved_imports := imports } := by
    intro imports
    have hbase : db.modules[m.idx]? = some md := by
      have hg : db.modules.get? m.idx = some md := h
      rw [List.get?_eq_getElem?] at hg
      exact hg
    show (listModify _ m.idx db.modules).get? m.idx = _
    rw [List.get?_eq_getElem?, listModify_get?_self, hbase]
    rfl
  constructor
  · simp [ModuleID.symbol, ModuleID.module_item_symbol, ModuleID.submodule, h]
  · intro imports
    simp [ModuleID.symbol, ModuleID.module_item_symbol, ModuleID.submodule, h, h2 imports]

/-- Witness for claim C6 at a concrete database. -/
theorem claim_C6_witness :
    ModuleID.symbol ⟨0⟩ w6db 5 = some (Symbol.function ⟨0⟩) ∧
    ModuleID.symbol ⟨0⟩ (w6db.setResolvedImports ⟨0⟩ []) 5 =
      ModuleID.symbol ⟨0⟩ w6db 5 := by
  constructor
  · rw [(claim_C6 w6db ⟨0⟩ 5 w6md rfl).1]
    rfl
  · exact (claim_C6 w6db ⟨0⟩ 5 w6md rfl).2 []

end Stellar


theorem arena_get_isNone {α : Type} (l : List α) (i : Nat) :
    (l.get? i).isNone ↔ l.length ≤ i := by
  rw [List.get?_eq_getElem?, Option.isNone_iff_eq_none, List.getElem?_eq_none_iff]

theorem arena_mut_isNone {α β : Type} (l : List α) (i : Nat) (g : α → β) :
    ((l.get? i).map g).isNone ↔ l.length ≤ i := by
  rw [Option.isNone_iff_eq_none, Option.map_eq_none', ← Option.isNone_iff_eq_none]
  exact arena_get_isNone l i

namespace Stellar

/-- Claim C7: for every entity kind and handle, the dereference (and the
update through the mutable dereference) fails exactly when the index
reaches the arena length, and the contains check holds exactly when the
index is strictly below it. -/
theorem claim_C7 (db : Database) (i : Nat) :
    (((db.module? ⟨i⟩).isNone ↔ db.modules.length ≤ i) ∧
      (db.contains_module ⟨i⟩ = true ↔ i < db.modules.length) ∧
      ∀ f, ((db.moduleMut? ⟨i⟩ f).isNone ↔ db.modules.length ≤ i)) ∧
    (((db.enum_module_item? ⟨i⟩).isNone ↔ db.enums.length ≤ i) ∧
      (db.contains_enum_module_item ⟨i⟩ = true ↔ i < db.enums.length) ∧
      ∀ f, ((db.enumMut? ⟨i⟩ f).isNone ↔ db.enums.length ≤ i)) ∧
    (((db.struct_module_item? ⟨i⟩).isNone ↔ db.structs.length ≤ i) ∧
      (db.contains_struct_module_item ⟨i⟩ = true ↔ i < db.structs.length) ∧
      ∀ f, ((db.structMut? ⟨i⟩ f).isNone ↔ db.structs.length ≤ i)) ∧
    (((db.tuple_like_struct? ⟨i⟩).isNone ↔ db.tuple_like_structs.length ≤ i) ∧
      (db.contains_tuple_like_struct ⟨i⟩ = true ↔ i < db.tuple_like_structs.length) ∧
      ∀ f, ((db.tupleLikeStructMut? ⟨i⟩ f).isNone ↔ db.tuple_like_structs.length ≤ i)) ∧
    (((db.type_alias? ⟨i⟩).isNone ↔ db.type_aliases.length ≤ i) ∧
      (db.contains_type_alias ⟨i⟩ = true ↔ i < db.type_aliases.length) ∧
      ∀ f, ((db.typeAliasMut? ⟨i⟩ f).isNone ↔ db.type_aliases.length ≤ i)) ∧
    (((db.function? ⟨i⟩).isNone ↔ db.functions.length ≤ i) ∧
      (db.contains_function ⟨i⟩ = true ↔ i < db.functions.length) ∧
      ∀ f, ((db.functionMut? ⟨i⟩ f).isNone ↔ db.functions.length ≤ i)) ∧
    (((db.interface? ⟨i⟩).isNone ↔ db.interfaces.length ≤ i) ∧
      (db.contains_interface ⟨i⟩ = true ↔ i < db.interfaces.length) ∧
      ∀ f, ((db.interfaceMut? ⟨i⟩ f).isNone ↔ db.interfaces.length ≤ i)) ∧
    (((db.predicate? ⟨i⟩).isNone ↔ db.predicates.length ≤ i) ∧
      (db.contains_predicate ⟨i⟩ = true ↔ i < db.predicates.length) ∧
      ∀ f, ((db.predicateMut? ⟨i⟩ f).isNone ↔ db.predicates.length ≤ i)) ∧
    (((db.enum_item? ⟨i⟩).isNone ↔ db.enum_items.length ≤ i) ∧
      (db.contains_enum_item ⟨i⟩ = true ↔ i < db.enum_items.length) ∧
      ∀ f, ((db.enumItemMut? ⟨i⟩ f).isNone ↔ db.enum_items.length ≤ i)) ∧
    (((db.field? ⟨i⟩).isNone ↔ db.fields.length ≤ i) ∧
      (db.contains_field ⟨i⟩ = true ↔ i < db.fields.length) ∧
      ∀ f, ((db.fieldMut? ⟨i⟩ f).isNone ↔ db.fields.length ≤ i)) ∧
    (((db.generic_parameter_scope? ⟨i⟩).isNone ↔ db.generic_parameter_scopes.length ≤ i) ∧
      (db.contains_generic_parameter_scope ⟨i⟩ = true ↔
        i < db.generic_parameter_scopes.length) ∧
      ∀ f, ((db.genericParameterScopeMut? ⟨i⟩ f).isNone ↔
        db.generic_parameter_scopes.length ≤ i)) ∧
    (((db.generic_parameter? ⟨i⟩).isNone ↔ db.generic_parameters.length ≤ i) ∧
      (db.contains_generic_parameter ⟨i⟩ = true ↔ i < db.generic_parameters.length) ∧
      ∀ f, ((db.genericParameterMut? ⟨i⟩ f).isNone ↔ db.generic_parameters.length ≤ i)) :=
  ⟨⟨arena_get_isNone _ _, decide_eq_true_iff, fun _ => arena_mut_isNone _ _ _⟩,
   ⟨arena_get_isNone _ _, decide_eq_true_iff, fun _ => arena_mut_isNone _ _ _⟩,
   ⟨arena_get_isNone _ _, decide_eq_true_iff, fun _ => arena_mut_isNone _ _ _⟩,
   ⟨arena_get_isNone _ _, decide_eq_true_iff, fun _ => arena_mut_isNone _ _ _⟩,
   ⟨arena_get_isNone _ _, decide_eq_true_iff, fun _ => arena_mut_isNone _ _ _⟩,
   ⟨arena_get_isNone _ _, decide_eq_true_iff, fun _ => arena_mut_isNone _ _ _⟩,
   ⟨arena_get_isNone _ _, decide_eq_true_iff, fun _ => arena_mut_isNone _ _ _⟩,
   ⟨arena_get_isNone _ _, decide_eq_true_iff, fun _ => arena_mut_isNone _ _ _⟩,
   ⟨arena_get_isNone _ _, decide_eq_true_iff, fun _ => arena_mut_isNone _ _ _⟩,
   ⟨arena_get_isNone _ _, decide_eq_true_iff, fun _ => arena_mut_isNone _ _ _⟩,
   ⟨arena_get_isNone _ _, decide_eq_true_iff, fun _ => arena_mut_isNone _ _ _⟩,
   ⟨arena_get_isNone _ _, decide_eq_true_iff, fun _ => arena_mut_isNone _ _ _⟩⟩

end Stellar


namespace Stellar

theorem parentsDecrease_spec (db : Database) (h : db.parentsDecrease = true)
    {i : Nat} {d : GenericParameterScopeData}
    (hg : db.generic_parameter_scopes.get? i = some d)
    {p : GenericParameterScopeID} (hp : d.parent_scope = some p) :
    p.idx < i := by
  have henum : db.generic_parameter_scopes.enum.get? i = some (i, d) := by
    rw [List.get?_enum, hg]
    rfl
  have hmem := List.get?_mem henum
  rw [Database.parentsDecrease, List.all_eq_true] at h
  have := h (i, d) hmem
  simpa [hp] using this

theorem scope_valid_some (db : Database) (s : GenericParameterScopeID)
    (h : s.idx < db.generic_parameter_scopes.length) :
    ∃ d, db.generic_parameter_scope? s = some d := by
  refine ⟨db.generic_parameter_scopes.get ⟨s.idx, h⟩, ?_⟩
  rw [Database.generic_parameter_scope?]
  exact List.get?_eq_get h

theorem resolveFuel_total (db : Database) (hwf : db.parentsDecrease = true) :
    ∀ (fuel : Nat) (s : GenericParameterScopeID) (name : Nat),
      s.idx < db.generic_parameter_scopes.length → s.idx < fuel →
      ∃ r, GenericParameterScopeID.resolveFuel db fuel s name = some r := by
  intro fuel
  induction fuel with
  | zero => intro s name _ h; omega
  | succ fuel ih =>
    intro s name hlen _
    obtain ⟨d, hd⟩ := scope_valid_some db s hlen
    cases hl : lookupKey d.parameters name with
    | some p =>
      exact ⟨some p, by simp [GenericParameterScopeID.resolveFuel, hd, hl]⟩
    | none =>
      cases hp : d.parent_scope with
      | none => exact ⟨none, by simp [GenericParameterScopeID.resolveFuel, hd, hl, hp]⟩
      | some parent =>
        have hdec : parent.idx < s.idx := parentsDecrease_spec db hwf hd hp
        obtain ⟨r, hr⟩ := ih parent name (by omega) (by omega)
        exact ⟨r, by simp [GenericParameterScopeID.resolveFuel, hd, hl, hp, hr]⟩

theorem containsFuel_total (db : Database) (hwf : db.parentsDecrease = true) :
    ∀ (fuel : Nat) (s : GenericParameterScopeID) (name : Nat),
      s.idx < db.generic_parameter_scopes.length → s.idx < fuel →
      ∃ b, GenericParameterScopeID.containsFuel db fuel s name = some b := by
  intro fuel
  induction fuel with
  | zero => intro s name _ h; omega
  | succ fuel ih =>
    intro s name hlen _
    obtain ⟨d, hd⟩ := scope_valid_some db s hlen
    cases hl : (lookupKey d.parameters name).isSome with
    | true =>
      exact ⟨true, by simp [GenericParameterScopeID.containsFuel, hd, hl]⟩
    | false =>
      cases hp : d.parent_scope with
      | none => exact ⟨false, by simp [GenericParameterScopeID.containsFuel, hd, hl, hp]⟩
      | some parent =>
        have hdec : parent.idx < s.idx := parentsDecrease_spec db hwf hd hp
        obtain ⟨b, hb⟩ := ih parent name (by omega) (by omega)
        exact ⟨b, by simp [GenericParameterScopeID.containsFuel, hd, hl, hp, hb]⟩

theorem nameUndeclared_spec (db : Database) (name : Nat)
    (h : db.nameUndeclared name = true) {d : GenericParameterScopeData}
    (hd : d ∈ db.generic_parameter_scopes) : lookupKey d.parameters name = none := by
  rw [Database.nameUndeclared, List.all_eq_true] at h
  have := h d hd
  simpa using this

theorem resolveFuel_undeclared (db : Database) (name : Nat)
    (hwf : db.parentsDecrease = true) (hund : db.nameUndeclared name = true) :
    ∀ (fuel : Nat) (s : GenericParameterScopeID),
      s.idx < db.generic_parameter_scopes.length → s.idx < fuel →
      GenericParameterScopeID.resolveFuel db fuel s name = some none := by
  intro fuel
  induction fuel with
  | zero => intro s _ h; omega
  | succ fuel ih =>
    intro s hlen _
    obtain ⟨d, hd⟩ := scope_valid_some db s hlen
    have hmem : d ∈ db.generic_parameter_scopes := List.get?_mem hd
    have hl : lookupKey d.parameters name = none := nameUndeclared_spec db name hund hmem
    cases hp : d.parent_scope with
    | none => simp [GenericParameterScopeID.resolveFuel, hd, hl, hp]
    | some parent =>
      have hdec : parent.idx < s.idx := parentsDecrease_spec db hwf hd hp
      have := ih parent (by omega) (by omega)
      simp [GenericParameterScopeID.resolveFuel, hd, hl, hp, this]

theorem containsFuel_undeclared (db : Database) (name : Nat)
    (hwf : db.parentsDecrease = true) (hund : db.nameUndeclared name = true) :
    ∀ (fuel : Nat) (s : GenericParameterScopeID),
      s.idx < db.generic_parameter_scopes.length → s.idx < fuel →
      GenericParameterScopeID.containsFuel db fuel s name = some false := by
  intro fuel
  induction fuel with
  | zero => intro s _ h; omega
  | succ fuel ih =>
    intro s hlen _
    obtain ⟨d, hd⟩ := scope_valid_some db s hlen
    have hmem : d ∈ db.generic_parameter_scopes := List.get?_mem hd
    have hl : lookupKey d.parameters name = none := nameUndeclared_spec db name hund hmem
    cases hp : d.parent_scope with
    | none => simp [GenericParameterScopeID.containsFuel, hd, hl, hp]
    | some parent =>
      have hdec : parent.idx < s.idx := parentsDecrease_spec db hwf hd hp
      have := ih parent (by omega) (by omega)
      simp [GenericParameterScopeID.containsFuel, hd, hl, hp, this]

/-- Claim C9: with acyclic parent links (indices strictly decrease) both
scope lookups terminate with a definite answer given fuel one more than
the leaf index, and when the name is declared nowhere the answers are
none and false. -/
theorem claim_C9 (db : Database) (s : GenericParameterScopeID) (name : Nat)
    (hwf : db.parentsDecrease = true)
    (hs : s.idx < db.generic_parameter_scopes.length) :
    (GenericParameterScopeID.resolveFuel db (s.idx + 1) s name).isSome = true ∧
    (GenericParameterScopeID.containsFuel db (s.idx + 1) s name).isSome = true ∧
    (db.nameUndeclared name = true →
      GenericParameterScopeID.resolveFuel db (s.idx + 1) s name = some none ∧
      GenericParameterScopeID.containsFuel db (s.idx + 1) s name = some false) := by
  refine ⟨?_, ?_, ?_⟩
  · obtain ⟨r, hr⟩ := resolveFuel_total db hwf (s.idx + 1) s name hs (by omega)
    simp [hr]
  · obtain ⟨b, hb⟩ := containsFuel_total db hwf (s.idx + 1) s name hs (by omega)
    simp [hb]
  · intro hund
    exact ⟨resolveFuel_undeclared db name hwf hund (s.idx + 1) s hs (by omega),
      containsFuel_undeclared db name hwf hund (s.idx + 1) s hs (by omega)⟩

/-- Witness for claim C9 at a concrete two-scope database. -/
theorem claim_C9_witness :
    (GenericParameterScopeID.resolveFuel w8db 2 ⟨1⟩ 9).isSome = true ∧
    (GenericParameterScopeID.containsFuel w8db 2 ⟨1⟩ 9).isSome = true ∧
    (w8db.nameUndeclared 9 = true →
      GenericParameterScopeID.resolveFuel w8db 2 ⟨1⟩ 9 = some none ∧
      GenericParameterScopeID.containsFuel w8db 2 ⟨1⟩ 9 = some false) :=
  claim_C9 w8db ⟨1⟩ 9 (by decide) (by decide)

end Stellar


namespace Stellar

theorem chain_resolve (db : Database) (name : Nat) (hwf : db.parentsDecrease = true) :
    ∀ (l : List GenericParameterScopeID) (leaf : GenericParameterScopeID) (fuel : Nat),
      chainLinked db l = true →
      (∀ x ∈ l, x.idx < db.generic_parameter_scopes.length) →
      l.head? = some leaf → leaf.idx < fuel →
      ∀ (k : Nat) (sk : GenericParameterScopeID) (v : GenericParameterID),
        l.get? k = some sk → scopeParam? db sk name = some v →
        (∀ (j : Nat) (sj : GenericParameterScopeID), j < k → l.get? j = some sj →
          scopeParam? db sj name = none) →
        GenericParameterScopeID.resolveFuel db fuel leaf name = some (some v) := by
  intro l
  induction l with
  | nil => intro leaf fuel _ _ _ _ k sk v hk; simp at hk
  | cons s rest ih =>
    intro leaf fuel hchain hvalid hleaf hfuel k sk v hk hdecl hinner
    have hls : leaf = s := by simpa using hleaf.symm
    subst hls
    obtain ⟨d, hd⟩ := scope_valid_some db leaf (hvalid leaf (by simp))
    cases fuel with
    | zero => omega
    | succ f =>
      cases k with
      | zero =>
        obtain rfl : leaf = sk := by simpa using hk
        have hlk : lookupKey d.parameters name = some v := by
          rw [scopeParam?, hd] at hdecl
          exact hdecl
        simp [GenericParameterScopeID.resolveFuel, hd, hlk]
      | succ k =>
        have hnone : scopeParam? db leaf name = none :=
          hinner 0 leaf (by omega) (by simp)
        have hlk : lookupKey d.parameters name = none := by
          rw [scopeParam?, hd] at hnone
          exact hnone
        cases rest with
        | nil => simp at hk
        | cons s2 rest2 =>
          have hchain2 : d.parent_scope = some s2 ∧
              chainLinked db (s2 :: rest2) = true := by
            rw [chainLinked, Bool.and_eq_true] at hchain
            refine ⟨?_, hchain.2⟩
            have h1 := hchain.1
            cases hp : d.parent_scope with
            | none => simp [hd, hp] at h1
            | some p =>
              simp [hd, hp] at h1
              rw [h1]
          have hdec : s2.idx < leaf.idx := parentsDecrease_spec db hwf hd hchain2.1
          have hstep : GenericParameterScopeID.resolveFuel db (f + 1) leaf name =
              GenericParameterScopeID.resolveFuel db f s2 name := by
            simp [GenericParameterScopeID.resolveFuel, hd, hlk, hchain2.1]
          rw [hstep]
          refine ih s2 f hchain2.2 (fun x hx => hvalid x (by simp [hx])) (by simp)
            (by omega) k sk v (by simpa using hk) hdecl ?_
          intro j sj hj hgj
          exact hinner (j + 1) sj (by omega) (by simpa using hgj)

/-- Claim C8: along a parent-linked chain of generic scopes, when a name
is declared both in the root and in a strictly deeper scope that is the
innermost declaring one, resolution from the leaf returns the deeper
declaration, never the root one. -/
theorem claim_C8 (db : Database) (name : Nat)
    (l : List GenericParameterScopeID) (leaf root : GenericParameterScopeID)
    (k : Nat) (sk : GenericParameterScopeID) (v v0 : GenericParameterID)
    (hwf : db.parentsDecrease = true)
    (hchain : chainLinked db l = true)
    (hvalid : ∀ x ∈ l, x.idx < db.generic_parameter_scopes.length)
    (hleaf : l.head? = some leaf)
    (_hroot : l.getLast? = some root)
    (_hnotroot : k + 1 < l.length)
    (hk : l.get? k = some sk)
    (hdecl : scopeParam? db sk name = some v)
    (hinner : ∀ (j : Nat) (sj : GenericParameterScopeID), j < k → l.get? j = some sj →
      scopeParam? db sj name = none)
    (_hrootdecl : scopeParam? db root name = some v0) :
    GenericParameterScopeID.resolveFuel db (leaf.idx + 1) leaf name = some (some v) ∧
    (v ≠ v0 →
      GenericParameterScopeID.resolveFuel db (leaf.idx + 1) leaf name ≠ some (some v0)) := by
  have h1 := chain_resolve db name hwf l leaf (leaf.idx + 1) hchain hvalid hleaf
    (by omega) k sk v hk hdecl hinner
  refine ⟨h1, fun hne hc => hne ?_⟩
  rw [h1] at hc
  exact Option.some.inj (Option.some.inj hc)

/-- Witness for claim C8: in the concrete two-scope database the leaf
declaration of name 7 wins over the root one. -/
theorem claim_C8_witness :
    GenericParameterScopeID.resolveFuel w8db 2 ⟨1⟩ 7 = some (some ⟨1⟩) ∧
    ((⟨1⟩ : GenericParameterID) ≠ ⟨0⟩ →
      GenericParameterScopeID.resolveFuel w8db 2 ⟨1⟩ 7 ≠ some (some ⟨0⟩)) :=
  claim_C8 w8db 7 [⟨1⟩, ⟨0⟩] ⟨1⟩ ⟨0⟩ 0 ⟨1⟩ ⟨1⟩ ⟨0⟩ (by decide) (by decide)
    (by decide) (by decide) (by decide) (by decide) (by decide) (by decide)
    (fun j sj hj _ => absurd hj (Nat.not_lt_zero j)) (by decide)

end Stellar


theorem get?_some_lt2 {α : Type} {l : List α} {i : Nat} {a : α} (h : l.get? i = some a) :
    i < l.length := by
  rw [List.get?_eq_getElem?] at h
  exact get?_some_lt h

theorem get?_append_some2 {α : Type} {l : List α} (t : List α) {i : Nat} {a : α}
    (h : l.get? i = some a) : (l ++ t).get? i = some a := by
  rw [List.get?_eq_getElem?] at h ⊢
  exact get?_append_some t h

namespace Stellar

theorem module?_congr (db' db : Database) (hm : db'.modules = db.modules) (m : ModuleID) :
    db'.module? m = db.module? m := by
  simp [Database.module?, hm]

theorem module_item_symbol_congr (db' db : Database) (hm : db'.modules = db.modules)
    (m : ModuleID) (n : Nat) :
    ModuleID.module_item_symbol m db' n = ModuleID.module_item_symbol m db n := by
  simp [ModuleID.module_item_symbol, module?_congr db' db hm]

theorem mis_some_module? {db : Database} {m : ModuleID} {n : Nat} {s : Symbol}
    (h : ModuleID.module_item_symbol m db n = some s) : (db.module? m).isSome = true := by
  rw [ModuleID.module_item_symbol] at h
  cases hm : db.module? m with
  | none => rw [hm] at h; simp at h
  | some md => rfl

theorem name?_mono (db db' : Database)
    (hm : db'.modules = db.modules)
    (he : ∃ t, db'.enums = db.enums ++ t)
    (hei : ∃ t, db'.enum_items = db.enum_items ++ t)
    (hst : ∃ t, db'.structs = db.structs ++ t)
    (hts : ∃ t, db'.tuple_like_structs = db.tuple_like_structs ++ t)
    (hf : ∃ t, db'.functions = db.functions ++ t)
    (hi : ∃ t, db'.interfaces = db.interfaces ++ t)
    (hta : ∃ t, db'.type_aliases = db.type_aliases ++ t)
    {s : Symbol} {n : IdentifierAST} (h : s.name? db = some n) :
    s.name? db' = some n := by
  cases s with
  | module m =>
    simp only [Symbol.name?, Database.module?] at h ⊢
    rw [hm]
    exact h
  | enum e =>
    obtain ⟨t, ht⟩ := he
    simp only [Symbol.name?, Database.enum_module_item?] at h ⊢
    obtain ⟨d, hd, hdn⟩ := Option.map_eq_some'.1 h
    rw [ht, get?_append_some2 t hd]
    simp [hdn]
  | enum_item e =>
    obtain ⟨t, ht⟩ := hei
    simp only [Symbol.name?, Database.enum_item?] at h ⊢
    obtain ⟨d, hd, hdn⟩ := Option.map_eq_some'.1 h
    rw [ht, get?_append_some2 t hd]
    simp [hdn]
  | struct e =>
    obtain ⟨t, ht⟩ := hst
    simp only [Symbol.name?, Database.struct_module_item?] at h ⊢
    obtain ⟨d, hd, hdn⟩ := Option.map_eq_some'.1 h
    rw [ht, get?_append_some2 t hd]
    simp [hdn]
  | tuple_like_struct e =>
    obtain ⟨t, ht⟩ := hts
    simp only [Symbol.name?, Database.tuple_like_struct?] at h ⊢
    obtain ⟨d, hd, hdn⟩ := Option.map_eq_some'.1 h
    rw [ht, get?_append_some2 t hd]
    simp [hdn]
  | function e =>
    obtain ⟨t, ht⟩ := hf
    simp only [Symbol.name?, Database.function?] at h ⊢
    obtain ⟨d, hd, hdn⟩ := Option.map_eq_some'.1 h
    rw [ht, get?_append_some2 t hd]
    simp [hdn]
  | interface e =>
    obtain ⟨t, ht⟩ := hi
    simp only [Symbol.name?, Database.interface?] at h ⊢
    obtain ⟨d, hd, hdn⟩ := Option.map_eq_some'.1 h
    rw [ht, get?_append_some2 t hd]
    simp [hdn]
  | type_alias e =>
    obtain ⟨t, ht⟩ := hta
    simp only [Symbol.name?, Database.type_alias?] at h ⊢
    obtain ⟨d, hd, hdn⟩ := Option.map_eq_some'.1 h
    rw [ht, get?_append_some2 t hd]
    simp [hdn]

theorem add_module_item_lookup (db : Database) (m : ModuleID) (name : Nat) (sym : Symbol)
    (h : (db.module? m).isSome = true) :
    ModuleID.module_item_symbol m (ModuleID.add_module_item m db name sym) name =
      some sym := by
  obtain ⟨md, hmd⟩ := Option.isSome_iff_exists.1 h
  have hmod : (ModuleID.add_module_item m db name sym).module? m =
      some { md with module_item_symbols := (name, sym) :: md.module_item_symbols } := by
    show (listModify _ m.idx db.modules).get? m.idx = _
    rw [List.get?_eq_getElem?, listModify_get?_self]
    have hb : db.modules[m.idx]? = some md := by
      rw [← List.get?_eq_getElem?]
      exact hmd
    rw [hb]
    rfl
  simp [ModuleID.module_item_symbol, hmod, lookupKey]

theorem check_dup_eq (st : State) (module : ModuleID) (name : IdentifierAST)
    (s : Symbol) (original : IdentifierAST)
    (hs : module.module_item_symbol st.db name.id = some s)
    (hn : s.name? st.db = some original) :
    check_for_duplicate_definition st module name =
      { st with diagnostics := st.diagnostics ++
          [(name.location.filepath,
            Diagnostic.itemDefinedMultipleTimes name.id original.location name.location)] } := by
  simp [check_for_duplicate_definition, hs, hn]

theorem check_enum_item_db (st : State) (ed : EnumData) (n : IdentifierAST) :
    (check_for_duplicate_enum_item st ed n).db = st.db := by
  unfold check_for_duplicate_enum_item
  split
  · split
    · rfl
    · rfl
  · rfl

theorem check_enum_item_diags (st : State) (ed : EnumData) (n : IdentifierAST) :
    ∃ extra, (check_for_duplicate_enum_item st ed n).diagnostics =
      st.diagnostics ++ extra ∧ extra.filter isItemDup = [] := by
  unfold check_for_duplicate_enum_item
  split
  · split
    · exact ⟨_, rfl, rfl⟩
    · exact ⟨[], by simp, rfl⟩
  · exact ⟨[], by simp, rfl⟩

end Stellar


namespace Stellar

theorem define_enum_items_spec (module : ModuleID) :
    ∀ (items : List IdentifierAST) (st : State) (ed : EnumData),
      (∃ t, (define_enum_items module st ed items).1.db =
        { st.db with enum_items := st.db.enum_items ++ t }) ∧
      (∃ extra, (define_enum_items module st ed items).1.diagnostics =
        st.diagnostics ++ extra ∧ extra.filter isItemDup = []) := by
  intro items
  induction items with
  | nil =>
    intro st ed
    constructor
    · exact ⟨[], by simp [define_enum_items]⟩
    · exact ⟨[], by simp [define_enum_items], rfl⟩
  | cons name rest ih =>
    intro st ed
    have hdb1 : (check_for_duplicate_enum_item st ed name).db = st.db :=
      check_enum_item_db st ed name
    obtain ⟨ex1, hex1, hfil1⟩ := check_enum_item_diags st ed name
    have hkey := ih
      { check_for_duplicate_enum_item st ed name with
        db := ((check_for_duplicate_enum_item st ed name).db.add_enum_item
          ⟨name, module⟩).2 }
      { ed with items := (name.id, ((check_for_duplicate_enum_item st ed name).db.add_enum_item
          ⟨name, module⟩).1) :: ed.items }
    obtain ⟨⟨t, hdbt⟩, ⟨ex2, hex2, hfil2⟩⟩ := hkey
    have hunfold : define_enum_items module st ed (name :: rest) =
        define_enum_items module
          { check_for_duplicate_enum_item st ed name with
            db := ((check_for_duplicate_enum_item st ed name).db.add_enum_item
              ⟨name, module⟩).2 }
          { ed with items := (name.id,
              ((check_for_duplicate_enum_item st ed name).db.add_enum_item
                ⟨name, module⟩).1) :: ed.items } rest := rfl
    constructor
    · refine ⟨(⟨name, module⟩ : EnumItemData) :: t, ?_⟩
      rw [hunfold, hdbt, hdb1]
      simp [Database.add_enum_item]
    · refine ⟨ex1 ++ ex2, ?_, ?_⟩
      · rw [hunfold, hex2]
        show ((check_for_duplicate_enum_item st ed name).diagnostics ++ ex2) = _
        rw [hex1, List.append_assoc]
      · rw [List.filter_append, hfil1, hfil2]
        rfl

theorem definedSymbol_ne (db : Database) (item : ModuleItemHir) (name : IdentifierAST)
    (s : Symbol) (n : IdentifierAST)
    (hname : item.name? = some name) (hn : s.name? db = some n) :
    definedSymbol db item ≠ s := by
  cases item <;> cases s <;>
    simp only [ModuleItemHir.name?, definedSymbol, Symbol.name?] at hname hn ⊢ <;>
    try exact fun h => Symbol.noConfusion h
  all_goals try exact Option.noConfusion hname
  all_goals
    obtain ⟨d, hd, -⟩ := Option.map_eq_some'.1 hn
  all_goals
    have hlt := get?_some_lt2 hd
  all_goals
    intro h
  all_goals
    cases h
  all_goals
    exact lt_irrefl _ hlt

end Stellar


theorem listLe_refl {α : Type} (l : List α) : ∃ t, l = l ++ t := ⟨[], by simp⟩

namespace Stellar

/-- Claim C1: a collected module item whose name the owning module
already binds produces exactly one ItemDefinedMultipleTimes record,
carrying the location of the original binding and of the new one, and
the new binding still overwrites the old one, so the name afterwards
resolves to the newly allocated symbol (the later entity), not the old
one. -/
theorem claim_C1 (st : State) (module : ModuleID) (item : ModuleItemHir)
    (name : IdentifierAST) (s : Symbol) (original : IdentifierAST)
    (hname : item.name? = some name)
    (hs : module.module_item_symbol st.db name.id = some s)
    (hn : s.name? st.db = some original) :
    ∃ extra, (defineItem st module item).diagnostics = st.diagnostics ++ extra ∧
      extra.filter isItemDup =
        [(name.location.filepath,
          Diagnostic.itemDefinedMultipleTimes name.id original.location name.location)] ∧
      ModuleID.module_item_symbol module (defineItem st module item).db name.id =
        some (definedSymbol st.db item) ∧
      definedSymbol st.db item ≠ s := by
  have hne : definedSymbol st.db item ≠ s := definedSymbol_ne st.db item name s original hname hn
  cases item with
  | function vis nm =>
    simp only [ModuleItemHir.name?, Option.some.injEq] at hname
    have hname2 := hname.symm
    subst hname2
    have hn1 : s.name? (st.db.add_function ⟨name, vis, module⟩).2 = some original :=
      name?_mono st.db (st.db.add_function ⟨name, vis, module⟩).2 rfl
        (listLe_refl _) (listLe_refl _) (listLe_refl _) (listLe_refl _) ⟨_, rfl⟩ (listLe_refl _) (listLe_refl _) hn
    have hcheck := check_dup_eq { st with db := (st.db.add_function ⟨name, vis, module⟩).2 }
      module name s original hs hn1
    refine ⟨[(name.location.filepath,
        Diagnostic.itemDefinedMultipleTimes name.id original.location name.location)],
      ?_, rfl, ?_, hne⟩
    · show (check_for_duplicate_definition
        { st with db := (st.db.add_function ⟨name, vis, module⟩).2 } module name).diagnostics = _
      rw [hcheck]
    · show ModuleID.module_item_symbol module
        (ModuleID.add_module_item module
          (check_for_duplicate_definition
            { st with db := (st.db.add_function ⟨name, vis, module⟩).2 } module name).db
          name.id (Symbol.function ⟨st.db.functions.length⟩)) name.id =
        some (Symbol.function ⟨st.db.functions.length⟩)
      rw [hcheck]
      exact add_module_item_lookup _ module name.id _ (mis_some_module? hs)
  | struct vis nm =>
    simp only [ModuleItemHir.name?, Option.some.injEq] at hname
    have hname2 := hname.symm
    subst hname2
    have hn1 : s.name? (st.db.add_struct_module_item (StructData.new vis name module)).2 = some original :=
      name?_mono st.db (st.db.add_struct_module_item (StructData.new vis name module)).2 rfl
        (listLe_refl _) (listLe_refl _) ⟨_, rfl⟩ (listLe_refl _) (listLe_refl _) (listLe_refl _) (listLe_refl _) hn
    have hcheck := check_dup_eq { st with db := (st.db.add_struct_module_item (StructData.new vis name module)).2 }
      module name s original hs hn1
    refine ⟨[(name.location.filepath,
        Diagnostic.itemDefinedMultipleTimes name.id original.location name.location)],
      ?_, rfl, ?_, hne⟩
    · show (check_for_duplicate_definition
        { st with db := (st.db.add_struct_module_item (StructData.new vis name module)).2 } module name).diagnostics = _
      rw [hcheck]
    · show ModuleID.module_item_symbol module
        (ModuleID.add_module_item module
          (check_for_duplicate_definition
            { st with db := (st.db.add_struct_module_item (StructData.new vis name module)).2 } module name).db
          name.id (Symbol.struct ⟨st.db.structs.length⟩)) name.id =
        some (Symbol.struct ⟨st.db.structs.length⟩)
      rw [hcheck]
      exact add_module_item_lookup _ module name.id _ (mis_some_module? hs)
  | interface vis nm =>
    simp only [ModuleItemHir.name?, Option.some.injEq] at hname
    have hname2 := hname.symm
    subst hname2
    have hn1 : s.name? (st.db.add_interface (InterfaceData.new vis name module)).2 = some original :=
      name?_mono st.db (st.db.add_interface (InterfaceData.new vis name module)).2 rfl
        (listLe_refl _) (listLe_refl _) (listLe_refl _) (listLe_refl _) (listLe_refl _) ⟨_, rfl⟩ (listLe_refl _) hn
    have hcheck := check_dup_eq { st with db := (st.db.add_interface (InterfaceData.new vis name module)).2 }
      module name s original hs hn1
    refine ⟨[(name.location.filepath,
        Diagnostic.itemDefinedMultipleTimes name.id original.location name.location)],
      ?_, rfl, ?_, hne⟩
    · show (check_for_duplicate_definition
        { st with db := (st.db.add_interface (InterfaceData.new vis name module)).2 } module name).diagnostics = _
      rw [hcheck]
    · show ModuleID.module_item_symbol module
        (ModuleID.add_module_item module
          (check_for_duplicate_definition
            { st with db := (st.db.add_interface (InterfaceData.new vis name module)).2 } module name).db
          name.id (Symbol.interface ⟨st.db.interfaces.length⟩)) name.id =
        some (Symbol.interface ⟨st.db.interfaces.length⟩)
      rw [hcheck]
      exact add_module_item_lookup _ module name.id _ (mis_some_module? hs)
  | tuple_like_struct vis nm =>
    simp only [ModuleItemHir.name?, Option.some.injEq] at hname
    have hname2 := hname.symm
    subst hname2
    have hn1 : s.name? (st.db.add_tuple_like_struct (TupleLikeStructData.new vis name module)).2 = some original :=
      name?_mono st.db (st.db.add_tuple_like_struct (TupleLikeStructData.new vis name module)).2 rfl
        (listLe_refl _) (listLe_refl _) (listLe_refl _) ⟨_, rfl⟩ (listLe_refl _) (listLe_refl _) (listLe_refl _) hn
    have hcheck := check_dup_eq { st with db := (st.db.add_tuple_like_struct (TupleLikeStructData.new vis name module)).2 }
      module name s original hs hn1
    refine ⟨[(name.location.filepath,
        Diagnostic.itemDefinedMultipleTimes name.id original.location name.location)],
      ?_, rfl, ?_, hne⟩
    · show (check_for_duplicate_definition
        { st with db := (st.db.add_tuple_like_struct (TupleLikeStructData.new vis name module)).2 } module name).diagnostics = _
      rw [hcheck]
    · show ModuleID.module_item_symbol module
        (ModuleID.add_module_item module
          (check_for_duplicate_definition
            { st with db := (st.db.add_tuple_like_struct (TupleLikeStructData.new vis name module)).2 } module name).db
          name.id (Symbol.tuple_like_struct ⟨st.db.tuple_like_structs.length⟩)) name.id =
        some (Symbol.tuple_like_struct ⟨st.db.tuple_like_structs.length⟩)
      rw [hcheck]
      exact add_module_item_lookup _ module name.id _ (mis_some_module? hs)
  | type_alias vis nm =>
    simp only [ModuleItemHir.name?, Option.some.injEq] at hname
    have hname2 := hname.symm
    subst hname2
    have hn1 : s.name? (st.db.add_type_alias (TypeAliasData.new vis name module)).2 = some original :=
      name?_mono st.db (st.db.add_type_alias (TypeAliasData.new vis name module)).2 rfl
        (listLe_refl _) (listLe_refl _) (listLe_refl _) (listLe_refl _) (listLe_refl _) (listLe_refl _) ⟨_, rfl⟩ hn
    have hcheck := check_dup_eq { st with db := (st.db.add_type_alias (TypeAliasData.new vis name module)).2 }
      module name s original hs hn1
    refine ⟨[(name.location.filepath,
        Diagnostic.itemDefinedMultipleTimes name.id original.location name.location)],
      ?_, rfl, ?_, hne⟩
    · show (check_for_duplicate_definition
        { st with db := (st.db.add_type_alias (TypeAliasData.new vis name module)).2 } module name).diagnostics = _
      rw [hcheck]
    · show ModuleID.module_item_symbol module
        (ModuleID.add_module_item module
          (check_for_duplicate_definition
            { st with db := (st.db.add_type_alias (TypeAliasData.new vis name module)).2 } module name).db
          name.id (Symbol.type_alias ⟨st.db.type_aliases.length⟩)) name.id =
        some (Symbol.type_alias ⟨st.db.type_aliases.length⟩)
      rw [hcheck]
      exact add_module_item_lookup _ module name.id _ (mis_some_module? hs)
  | enum vis nm eitems =>
    simp only [ModuleItemHir.name?, Option.some.injEq] at hname
    have hname2 := hname.symm
    subst hname2
    obtain ⟨⟨t, hW⟩, ⟨ex1, hex1, hfil1⟩⟩ :=
      define_enum_items_spec module eitems st (EnumData.new vis name module)
    have hmodw : (define_enum_items module st (EnumData.new vis name module) eitems).1.db.modules = st.db.modules := by rw [hW]
    have henums : (define_enum_items module st (EnumData.new vis name module) eitems).1.db.enums = st.db.enums := by rw [hW]
    have hs1 : ModuleID.module_item_symbol module (define_enum_items module st (EnumData.new vis name module) eitems).1.db name.id = some s :=
      (module_item_symbol_congr (define_enum_items module st (EnumData.new vis name module) eitems).1.db st.db hmodw module name.id).trans hs
    have hn1 : s.name? (define_enum_items module st (EnumData.new vis name module) eitems).1.db = some original :=
      name?_mono st.db (define_enum_items module st (EnumData.new vis name module) eitems).1.db hmodw
        ⟨[], by rw [hW]; simp⟩ ⟨t, by rw [hW]⟩ ⟨[], by rw [hW]; simp⟩
        ⟨[], by rw [hW]; simp⟩ ⟨[], by rw [hW]; simp⟩ ⟨[], by rw [hW]; simp⟩
        ⟨[], by rw [hW]; simp⟩ hn
    have hcheck := check_dup_eq (define_enum_items module st (EnumData.new vis name module) eitems).1 module name s original hs1 hn1
    have hsome : (((define_enum_items module st (EnumData.new vis name module) eitems).1.db.add_enum_module_item
        (define_enum_items module st (EnumData.new vis name module) eitems).2).2.module? module).isSome = true := by
      show ((define_enum_items module st (EnumData.new vis name module) eitems).1.db.module? module).isSome = true
      rw [module?_congr (define_enum_items module st (EnumData.new vis name module) eitems).1.db st.db hmodw module]
      exact mis_some_module? hs
    have hsym : (Symbol.enum ⟨st.db.enums.length⟩ : Symbol) =
        Symbol.enum ⟨(define_enum_items module st (EnumData.new vis name module) eitems).1.db.enums.length⟩ := by
      rw [henums]
    refine ⟨ex1 ++ [(name.location.filepath,
        Diagnostic.itemDefinedMultipleTimes name.id original.location name.location)],
      ?_, ?_, ?_, hne⟩
    · show (check_for_duplicate_definition (define_enum_items module st (EnumData.new vis name module) eitems).1 module name).diagnostics = _
      rw [hcheck]
      show (define_enum_items module st (EnumData.new vis name module) eitems).1.diagnostics ++ _ = _
      rw [hex1, List.append_assoc]
    · rw [List.filter_append, hfil1]
      rfl
    · show ModuleID.module_item_symbol module
        (ModuleID.add_module_item module
          ((check_for_duplicate_definition (define_enum_items module st (EnumData.new vis name module) eitems).1 module name).db.add_enum_module_item
            (define_enum_items module st (EnumData.new vis name module) eitems).2).2
          name.id
          (Symbol.enum
            ((check_for_duplicate_definition (define_enum_items module st (EnumData.new vis name module) eitems).1 module name).db.add_enum_module_item
              (define_enum_items module st (EnumData.new vis name module) eitems).2).1))
        name.id = some (Symbol.enum ⟨st.db.enums.length⟩)
      rw [hcheck, hsym]
      exact add_module_item_lookup _ module name.id _ hsome
  | other => simp [ModuleItemHir.name?] at hname

end Stellar


namespace Stellar

/-- Witness for claim C1: collecting a function whose name is already
bound in the concrete one-module database. -/
theorem claim_C1_witness :
    ∃ extra,
      (defineItem w1st ⟨0⟩ (ModuleItemHir.function Visibility.pub w1name)).diagnostics =
        w1st.diagnostics ++ extra ∧
      extra.filter isItemDup =
        [(w1name.location.filepath,
          Diagnostic.itemDefinedMultipleTimes w1name.id w1old.location w1name.location)] ∧
      ModuleID.module_item_symbol ⟨0⟩
        (defineItem w1st ⟨0⟩ (ModuleItemHir.function Visibility.pub w1name)).db w1name.id =
        some (definedSymbol w1st.db (ModuleItemHir.function Visibility.pub w1name)) ∧
      definedSymbol w1st.db (ModuleItemHir.function Visibility.pub w1name) ≠
        Symbol.function ⟨0⟩ :=
  claim_C1 w1st ⟨0⟩ (ModuleItemHir.function Visibility.pub w1name) w1name
    (Symbol.function ⟨0⟩) w1old rfl rfl rfl

end Stellar


namespace Ry

/-- Claim C5: a bare single-segment, zero-argument type path whose
identifier the generic scope chain contains resolves to the
generic-parameter reference constructor, with no diagnostics, for every
possible behaviour of module path resolution (it is never consulted),
hence even when a module item of the same name exists. -/
theorem claim_C5 (ctx : TypeCheckingContext) (gps : GenericParameterScope)
    (loc : Location) (ident : IdentifierAST)
    (h : gps.contains ident.id = true) :
    resolve_type ctx gps (HirType.constructor (HirTypeConstructor.mk loc [ident] [])) =
      RRes.ret (some (Ty.constructor (TypeConstructor.mk [ident.id] []))) [] := by
  simp [resolve_type, resolve_type_constructor, h]

/-- Witness for claim C5: parameter 7 is in scope and the context
resolves every path to a module item, yet the generic parameter wins. -/
theorem claim_C5_witness :
    resolve_type c2ctx w5scope
      (HirType.constructor (HirTypeConstructor.mk ⟨0, 0, 3⟩ [⟨⟨0, 0, 3⟩, 7⟩] [])) =
      RRes.ret (some (Ty.constructor (TypeConstructor.mk [7] []))) [] :=
  claim_C5 c2ctx w5scope ⟨0, 0, 3⟩ ⟨⟨0, 0, 3⟩, 7⟩ rfl

/-- Counterexample to claim C2 as stated: a path that resolves to a
module-item binding whose signature is a function signature does not
produce an ExpectedType diagnostic and does not return nothing; the
resolver reaches the todo panic site with no diagnostics at all. -/
theorem claim_C2_counterexample :
    resolve_type_constructor c2ctx emptyScope c2tc =
      RRes.panic PanicKind.todoHit [] ∧
    c2ctx.resolveSignature (NameBinding.moduleItem ⟨5, 0⟩) =
      some (ModuleItemSignature.function 0) :=
  ⟨rfl, rfl⟩

/-- Claim C2 (amended): when the resolved binding is not a module item
(for example it names a whole module), exactly one ExpectedType
diagnostic is filed, carrying the offending location and the binding
kind found, and type-constructor resolution returns nothing; a
module-item binding instead reaches unimplemented code. -/
theorem claim_C2 (ctx : TypeCheckingContext) (gps : GenericParameterScope)
    (loc : Location) (first : IdentifierAST) (rest : List IdentifierAST)
    (args : List HirType) (nb : NameBinding) (ds : List Diag)
    (hshort : (rest.isEmpty && args.isEmpty && gps.contains first.id) = false)
    (hres : ctx.resolvePath (first :: rest) = (some nb, ds))
    (hkind : nb.kind.is_module_item = false) :
    resolve_type_constructor ctx gps (HirTypeConstructor.mk loc (first :: rest) args) =
      RRes.ret none (ds ++ [Diag.expectedType loc.file_path_id loc nb.kind]) := by
  simp [resolve_type_constructor, hshort, hres, hkind]

/-- Witness for the amended claim C2: a path resolving to a module
binding files exactly the one ExpectedType record and yields nothing. -/
theorem claim_C2_witness :
    resolve_type_constructor w2ctx emptyScope
      (HirTypeConstructor.mk ⟨0, 0, 3⟩ [⟨⟨0, 0, 3⟩, 5⟩] []) =
      RRes.ret none
        ([] ++ [Diag.expectedType 0 ⟨0, 0, 3⟩ NameBindingKind.module]) :=
  claim_C2 w2ctx emptyScope ⟨0, 0, 3⟩ ⟨⟨0, 0, 3⟩, 5⟩ [] [] (NameBinding.module 3) []
    rfl rfl rfl

/-- Counterexample to claim C3 as stated: a bound path resolving to a
binding whose signature is a struct signature makes interface resolution
reach the unreachable panic site instead of returning nothing. -/
theorem claim_C3_counterexample :
    resolve_interface c3ctx emptyScope w3bound =
      RRes.panic PanicKind.unreachableHit [] ∧
    c3ctx.resolveSignature (NameBinding.moduleItem ⟨2, 0⟩) =
      some (ModuleItemSignature.struct 0) :=
  ⟨rfl, rfl⟩

/-- Claim C3 (amended): once the path resolves to a binding with a
signature, a non-interface signature makes interface-constructor
resolution panic at the unreachable site (rather than fail by returning
nothing), while an interface signature yields the constructor with every
type argument resolved recursively through the type resolver. -/
theorem claim_C3 (ctx : TypeCheckingContext) (gps : GenericParameterScope)
    (loc : Location) (path : List IdentifierAST) (args : List HirType)
    (nb : NameBinding) (ds : List Diag) (sig : ModuleItemSignature)
    (hres : ctx.resolvePath path = (some nb, ds))
    (hsig : ctx.resolveSignature nb = some sig) :
    (sig.isInterface = false →
      resolve_interface ctx gps (HirTypeConstructor.mk loc path args) =
        RRes.panic PanicKind.unreachableHit ds) ∧
    (sig.isInterface = true →
      resolve_interface ctx gps (HirTypeConstructor.mk loc path args) =
        (match resolve_types ctx gps args with
         | RRes.ret (some tys) ds2 =>
           RRes.ret (some (TypeConstructor.mk (path.map (·.id)) tys)) (ds ++ ds2)
         | RRes.ret none ds2 => RRes.ret none (ds ++ ds2)
         | RRes.panic k ds2 => RRes.panic k (ds ++ ds2))) := by
  constructor
  · intro hni
    cases sig <;> simp_all [ModuleItemSignature.isInterface, resolve_interface, hres, hsig]
  · intro hi
    cases sig with
    | interface k =>
      cases hargs : resolve_types ctx gps args with
      | ret o ds2 =>
        cases o <;> simp [resolve_interface, hres, hsig, hargs]
      | panic k2 ds2 =>
        simp [resolve_interface, hres, hsig, hargs]
    | function p => exact absurd hi (by simp [ModuleItemSignature.isInterface])
    | struct p => exact absurd hi (by simp [ModuleItemSignature.isInterface])
    | tupleLikeStruct p => exact absurd hi (by simp [ModuleItemSignature.isInterface])
    | enum p => exact absurd hi (by simp [ModuleItemSignature.isInterface])
    | typeAlias p => exact absurd hi (by simp [ModuleItemSignature.isInterface])

/-- Witness for the amended claim C3 at a context resolving to an
interface signature with an empty argument list. -/
theorem claim_C3_witness :
    ((ModuleItemSignature.interface 0).isInterface = false →
      resolve_interface w3ctx emptyScope
        (HirTypeConstructor.mk ⟨0, 0, 3⟩ [⟨⟨0, 0, 3⟩, 5⟩] []) =
        RRes.panic PanicKind.unreachableHit []) ∧
    ((ModuleItemSignature.interface 0).isInterface = true →
      resolve_interface w3ctx emptyScope
        (HirTypeConstructor.mk ⟨0, 0, 3⟩ [⟨⟨0, 0, 3⟩, 5⟩] []) =
        RRes.ret (some (TypeConstructor.mk [5] [])) []) :=
  claim_C3 w3ctx emptyScope ⟨0, 0, 3⟩ [⟨⟨0, 0, 3⟩, 5⟩] []
    (NameBinding.moduleItem ⟨1, 0⟩) [] (ModuleItemSignature.interface 0) rfl rfl

end Ry


namespace Ry

theorem resolve_bounds_spec (ctx : TypeCheckingContext) (gps : GenericParameterScope) :
    ∀ (bounds : List HirTypeConstructor),
      (∀ b ∈ bounds, (resolve_interface ctx gps b).IsRet) →
      resolve_bounds ctx gps bounds =
        RRes.ret (bounds.filterMap (interfaceResultOf ctx gps))
          ((bounds.map (interfaceDiagsOf ctx gps)).join) := by
  intro bounds
  induction bounds with
  | nil =>
    intro _
    simp [resolve_bounds]
  | cons b bs ih =>
    intro h
    have hb := h b (by simp)
    have ihh := ih fun x hx => h x (List.mem_cons_of_mem b hx)
    cases hrb : resolve_interface ctx gps b with
    | panic k dsb =>
      rw [hrb] at hb
      exact hb.elim
    | ret o dsb =>
      cases o with
      | some tc =>
        simp [resolve_bounds, hrb, ihh, interfaceResultOf, interfaceDiagsOf]
      | none =>
        simp [resolve_bounds, hrb, ihh, interfaceResultOf, interfaceDiagsOf]

/-- Claim C4 (amended): when no bound reaches a panic site, bound
filtering keeps exactly the bounds whose interface resolution yields a
constructor, adds no diagnostics of its own beyond the ones each bound
resolution filed, and the interface-object type resolves to nothing when
the filtered set is empty and to an InterfaceObject over exactly the
filtered set otherwise.  (A bound whose path resolves to a non-interface
signature panics instead of being dropped; see the counterexample.) -/
theorem claim_C4 (ctx : TypeCheckingContext) (gps : GenericParameterScope)
    (loc : Location) (bounds : List HirTypeConstructor)
    (h : ∀ b ∈ bounds, (resolve_interface ctx gps b).IsRet) :
    resolve_bounds ctx gps bounds =
      RRes.ret (bounds.filterMap (interfaceResultOf ctx gps))
        ((bounds.map (interfaceDiagsOf ctx gps)).join) ∧
    resolve_type ctx gps (HirType.interfaceObject loc bounds) =
      (if (bounds.filterMap (interfaceResultOf ctx gps)).isEmpty = true
       then RRes.ret none ((bounds.map (interfaceDiagsOf ctx gps)).join)
       else RRes.ret
         (some (Ty.interfaceObject (bounds.filterMap (interfaceResultOf ctx gps))))
         ((bounds.map (interfaceDiagsOf ctx gps)).join)) := by
  have h1 := resolve_bounds_spec ctx gps bounds h
  refine ⟨h1, ?_⟩
  cases hemp : (bounds.filterMap (interfaceResultOf ctx gps)).isEmpty with
  | true => simp [resolve_type, h1, hemp]
  | false => simp [resolve_type, h1, hemp]

/-- Witness for the amended claim C4, mirroring the spec scenario of
three bounds of which exactly one resolves: the filtered list has length
one and the interface object resolves to exactly that bound. -/
theorem claim_C4_witness :
    (resolve_bounds w4ctx emptyScope w4bounds =
      RRes.ret (w4bounds.filterMap (interfaceResultOf w4ctx emptyScope))
        ((w4bounds.map (interfaceDiagsOf w4ctx emptyScope)).join) ∧
    resolve_type w4ctx emptyScope (HirType.interfaceObject ⟨0, 0, 5⟩ w4bounds) =
      (if (w4bounds.filterMap (interfaceResultOf w4ctx emptyScope)).isEmpty = true
       then RRes.ret none ((w4bounds.map (interfaceDiagsOf w4ctx emptyScope)).join)
       else RRes.ret
         (some (Ty.interfaceObject (w4bounds.filterMap (interfaceResultOf w4ctx emptyScope))))
         ((w4bounds.map (interfaceDiagsOf w4ctx emptyScope)).join))) ∧
    (w4bounds.filterMap (interfaceResultOf w4ctx emptyScope)).length = 1 :=
  ⟨claim_C4 w4ctx emptyScope ⟨0, 0, 5⟩ w4bounds
    (by
      intro b hb
      simp only [w4bounds, List.mem_cons, List.not_mem_nil, or_false] at hb
      rcases hb with rfl | rfl | rfl <;> exact trivial),
   rfl⟩

/-- Counterexample to claim C4 as stated: a bound resolving to a
struct-signature symbol is not silently dropped; the whole
interface-object resolution reaches the unreachable panic site (in
particular the zero-valid-bound outcome is not a plain nothing here). -/
theorem claim_C4_counterexample :
    resolve_type c3ctx emptyScope (HirType.interfaceObject ⟨0, 0, 3⟩ [w3bound]) =
      RRes.panic PanicKind.unreachableHit [] ∧
    c3ctx.resolveSignature (NameBinding.moduleItem ⟨2, 0⟩) =
      some (ModuleItemSignature.struct 0) :=
  ⟨rfl, rfl⟩

/-- Claim C10: a bound whose path resolves to an interface signature but
whose type-argument resolution fails is dropped from the bound list the
same way as a bound whose head fails to resolve: interface resolution
returns nothing and bound filtering keeps the remaining bounds,
contributing only the diagnostics path and argument resolution already
filed. -/
theorem claim_C10 (ctx : TypeCheckingContext) (gps : GenericParameterScope)
    (loc : Location) (path : List IdentifierAST) (args : List HirType)
    (nb : NameBinding) (k : Nat) (ds ds2 : List Diag)
    (bs : List HirTypeConstructor)
    (hres : ctx.resolvePath path = (some nb, ds))
    (hsig : ctx.resolveSignature nb = some (ModuleItemSignature.interface k))
    (hargs : resolve_types ctx gps args = RRes.ret none ds2) :
    resolve_interface ctx gps (HirTypeConstructor.mk loc path args) =
      RRes.ret none (ds ++ ds2) ∧
    resolve_bounds ctx gps (HirTypeConstructor.mk loc path args :: bs) =
      (match resolve_bounds ctx gps bs with
       | RRes.ret tcs dsr => RRes.ret tcs ((ds ++ ds2) ++ dsr)
       | RRes.panic kk dsr => RRes.panic kk ((ds ++ ds2) ++ dsr)) := by
  have h1 : resolve_interface ctx gps (HirTypeConstructor.mk loc path args) =
      RRes.ret none (ds ++ ds2) := by
    simp [resolve_interface, hres, hsig, hargs]
  refine ⟨h1, ?_⟩
  cases hb : resolve_bounds ctx gps bs with
  | ret tcs dsr => simp [resolve_bounds, h1, hb]
  | panic kk dsr => simp [resolve_bounds, h1, hb]

/-- Witness for claim C10: the head of the bound names an interface but
its single type argument is an interface object with no resolvable
bound, so the whole bound is dropped, leaving an empty filtered list. -/
theorem claim_C10_witness :
    resolve_interface w10ctx emptyScope
      (HirTypeConstructor.mk ⟨0, 0, 1⟩ [⟨⟨0, 0, 1⟩, 1⟩]
        [HirType.interfaceObject ⟨0, 2, 3⟩ [.mk ⟨0, 2, 3⟩ [⟨⟨0, 2, 3⟩, 9⟩] []]]) =
      RRes.ret none ([] ++ []) ∧
    resolve_bounds w10ctx emptyScope
      [HirTypeConstructor.mk ⟨0, 0, 1⟩ [⟨⟨0, 0, 1⟩, 1⟩]
        [HirType.interfaceObject ⟨0, 2, 3⟩ [.mk ⟨0, 2, 3⟩ [⟨⟨0, 2, 3⟩, 9⟩] []]]] =
      RRes.ret [] (([] ++ []) ++ []) :=
  claim_C10 w10ctx emptyScope ⟨0, 0, 1⟩ [⟨⟨0, 0, 1⟩, 1⟩]
    [HirType.interfaceObject ⟨0, 2, 3⟩ [.mk ⟨0, 2, 3⟩ [⟨⟨0, 2, 3⟩, 9⟩] []]]
    (NameBinding.moduleItem ⟨1, 0⟩) 0 [] [] [] rfl rfl rfl

end Ry

